import Mathlib

/-!
Verification of the GPS trajectory drift detector and its companion tools
(GPSProcessor / GPSCore, GpsTrajectoryAnalyzer, GPSSimulationGenerator,
GPSDataConverter) against the natural-language specification.

The embedding is shallow: every stateful class is a Lean state record plus a
step function translated branch-for-branch from the TypeScript source.
JavaScript numbers are modelled by the rationals; the wall clock value
returned by Date.now() during one call is passed in as an explicit argument.
The transcendental geometry kernel of the source (haversine distance, and the
acos-based minimum triangle angle) cannot be represented exactly over the
rationals, so the detector is parameterised by an abstract kernel; every
theorem about the detector therefore holds for the actual haversine kernel in
particular, and witnesses instantiate the kernel with simple computable
surrogates.  Code that throws (median or centroid of an empty set) is
modelled with Option, the none case standing for the thrown exception.
-/

namespace GPSTraj

/-- A GPS fix, the canonical `{lat, lng, timestamp}` record of the source.
Coordinates are degrees, the timestamp is in milliseconds since the epoch. -/
structure GPSPoint where
  lat : ℚ
  lng : ℚ
  timestamp : ℤ
deriving DecidableEq, Repr

/-- Unreachable default value used only for in-range list indexing. -/
def dummyPoint : GPSPoint := { lat := 0, lng := 0, timestamp := 0 }

/-- The ProcessorConfig record shared by GPSProcessor, GPSCore and
GpsTrajectoryAnalyzer (the AlgorithmConfig of the analyzer adds only an
earthRadius field consumed inside the haversine kernel, which is abstracted
away here). -/
structure ProcessorConfig where
  windowSize : ℕ
  validityPeriod : ℤ
  maxDriftSequence : ℕ
  driftThresholdMultiplier : ℚ
  linearMotionAngleThreshold : ℚ
deriving DecidableEq, Repr

/-- The defaults of GPSProcessor.config, GPSCore.config and DEFAULT_CONFIG:
`windowSize 10, validityPeriod 15000 ms, maxDriftSequence 10,
driftThresholdMultiplier 2, linearMotionAngleThreshold 30`. -/
def defaultConfig : ProcessorConfig :=
  { windowSize := 10, validityPeriod := 15000, maxDriftSequence := 10,
    driftThresholdMultiplier := 2, linearMotionAngleThreshold := 30 }

/-- The geometry kernel of the source: `dist` embodies haversineDistance /
calculateDistance and `minAngle` embodies calculateMinAngleInTriangle as used
by the detector.  Both are floating-point transcendental computations in the
source, so the detector embedding takes them as a parameter: each detector
theorem below holds for every kernel, hence for the haversine one. -/
structure GeoKernel where
  dist : GPSPoint → GPSPoint → ℚ
  minAngle : GPSPoint → GPSPoint → GPSPoint → ℚ

/-- Computable surrogate distance used to instantiate the abstract kernel in
witnesses and counterexamples.  Like the haversine distance it is symmetric,
vanishes exactly on equal coordinates, and grows with coordinate separation;
the detector control flow exercised by the witnesses depends on the kernel
only through such comparisons. -/
def taxicabDist (p q : GPSPoint) : ℚ :=
  |p.lat - q.lat| + |p.lng - q.lng|

/-- Witness kernel whose triangle test always reports a flat (0 degree)
triangle, so the linear-motion branch can fire. -/
def flatKernel : GeoKernel :=
  { dist := taxicabDist, minAngle := fun _ _ _ => 0 }

/-- Witness kernel whose triangle test always reports a wide (100 degree)
minimum angle, so the linear-motion branch never fires. -/
def bendKernel : GeoKernel :=
  { dist := taxicabDist, minAngle := fun _ _ _ => 100 }

/-- JS `array.push(x)` followed by `if (length > W) shift()`: append and evict
the oldest element when the cap is exceeded.  This is the sliding-window
maintenance idiom of the source. -/
def capPush {α : Type} (W : ℕ) (w : List α) (q : α) : List α :=
  if W < (w ++ [q]).length then (w ++ [q]).tail else w ++ [q]

/-! ## GPSProcessor (gpsProcessor.ts, duplicated line for line as GPSCore in
gpsCore.ts) -/

/-- The mutable fields of class GPSProcessor (and of GPSCore, whose processing
half is identical). -/
structure ProcessorState where
  slidingWindow : List GPSPoint
  validPoints : List GPSPoint
  lastBasePointTime : ℤ
  basePoint : Option GPSPoint
  basePointRadius : ℚ
  consecutiveDriftPoints : List GPSPoint
  discardedDriftPointsCount : ℕ
  basePointRebuildsCount : ℕ
  basePointRebuildPositions : List GPSPoint
deriving DecidableEq, Repr

/-- The field initialisers of GPSProcessor, also the state reinstalled at the
top of processTrajectory. -/
def initialState : ProcessorState :=
  { slidingWindow := [], validPoints := [], lastBasePointTime := 0,
    basePoint := none, basePointRadius := 0, consecutiveDriftPoints := [],
    discardedDriftPointsCount := 0, basePointRebuildsCount := 0,
    basePointRebuildPositions := [] }

/-- GPSProcessor.calculateMedianPoint: sort by lat and by lng independently
(JS sort with a numeric comparator is stable and ascending), take the middle
element, or the mean of the two middle elements for even counts; the returned
point is stamped with Date.now().  `none` models the `Points array is empty`
exception. -/
def calculateMedianPoint (now : ℤ) (points : List GPSPoint) : Option GPSPoint :=
  if points.length = 0 then none
  else
    let sortedByLat := points.insertionSort (fun a b => a.lat ≤ b.lat)
    let sortedByLng := points.insertionSort (fun a b => a.lng ≤ b.lng)
    let midIndex := points.length / 2
    let medianLat :=
      if points.length % 2 = 0 then
        ((sortedByLat.getD (midIndex - 1) dummyPoint).lat
          + (sortedByLat.getD midIndex dummyPoint).lat) / 2
      else (sortedByLat.getD midIndex dummyPoint).lat
    let medianLng :=
      if points.length % 2 = 0 then
        ((sortedByLng.getD (midIndex - 1) dummyPoint).lng
          + (sortedByLng.getD midIndex dummyPoint).lng) / 2
      else (sortedByLng.getD midIndex dummyPoint).lng
    some { lat := medianLat, lng := medianLng, timestamp := now }

/-- GPSProcessor.calculateBasePointRadius: 0 without a base point or with an
underfull window, otherwise the maximum kernel distance from a window point to
the base point. -/
def calculateBasePointRadius (cfg : ProcessorConfig) (geo : GeoKernel)
    (w : List GPSPoint) (base : Option GPSPoint) : ℚ :=
  match base with
  | none => 0
  | some bp =>
      if w.length < cfg.windowSize then 0
      else w.foldl (fun m p => max m (geo.dist p bp)) 0

/-- GPSProcessor.updateBasePoint: a no-op unless the sliding window has at
least windowSize points; otherwise install the median point as the new base,
stamp lastBasePointTime with Date.now(), and recompute the radius. -/
def updateBasePoint (cfg : ProcessorConfig) (geo : GeoKernel) (now : ℤ)
    (s : ProcessorState) : Option ProcessorState :=
  if cfg.windowSize ≤ s.slidingWindow.length then
    match calculateMedianPoint now s.slidingWindow with
    | none => none
    | some m =>
        some { s with basePoint := some m, lastBasePointTime := now,
                      basePointRadius :=
                        calculateBasePointRadius cfg geo s.slidingWindow (some m) }
  else some s

/-- GPSProcessor.isDriftPoint: never a drift without a base point or with a
zero radius; otherwise a drift exactly when the kernel distance to the base
exceeds radius times the drift threshold multiplier. -/
def isDriftPoint (cfg : ProcessorConfig) (geo : GeoKernel)
    (base : Option GPSPoint) (radius : ℚ) (p : GPSPoint) : Bool :=
  match base with
  | none => false
  | some bp =>
      if radius = 0 then false
      else decide (radius * cfg.driftThresholdMultiplier < geo.dist p bp)

/-- GPSProcessor.isLinearMotion: with fewer than 3 points answer false;
otherwise take the last three points, and answer true exactly when their
minimum triangle angle is below the configured threshold and the furthest of
the three from the base point is within 5 times the drift threshold distance.
The source dereferences this.basePoint with a non-null assertion; the none
branch below is unreachable from the call site because a drift verdict
requires a base point. -/
def isLinearMotion (cfg : ProcessorConfig) (geo : GeoKernel)
    (base : Option GPSPoint) (radius : ℚ) (points : List GPSPoint) : Bool :=
  if points.length < 3 then false
  else
    match base with
    | none => false
    | some bp =>
        let r3 := points.drop (points.length - 3)
        let q1 := r3.getD 0 dummyPoint
        let q2 := r3.getD 1 dummyPoint
        let q3 := r3.getD 2 dummyPoint
        if geo.minAngle q1 q2 q3 < cfg.linearMotionAngleThreshold then
          let maxDistance := max (max (geo.dist q1 bp) (geo.dist q2 bp)) (geo.dist q3 bp)
          decide (maxDistance ≤ radius * cfg.driftThresholdMultiplier * 5)
        else false

/-- One iteration of the linear-motion recovery loop of
GPSProcessor.processPoint: push the buffered point to validPoints and to the
sliding window, evicting the oldest window entry beyond the cap. -/
def recoveryStep (W : ℕ) (t : ProcessorState) (q : GPSPoint) : ProcessorState :=
  { t with validPoints := t.validPoints ++ [q],
           slidingWindow := capPush W t.slidingWindow q }

/-- GPSProcessor.processPoint, translated branch for branch.  `now` is the
value Date.now() yields during the call.  The Bool is the return value of the
source (true means accepted); `none` models the exception thrown by
calculateMedianPoint on an empty window, reachable only when windowSize = 0. -/
def processPoint (cfg : ProcessorConfig) (geo : GeoKernel) (now : ℤ)
    (s : ProcessorState) (p : GPSPoint) : Option (Bool × ProcessorState) :=
  if s.slidingWindow.length < cfg.windowSize then
    let s1 := { s with slidingWindow := s.slidingWindow ++ [p],
                       validPoints := s.validPoints ++ [p] }
    if s1.slidingWindow.length = cfg.windowSize then
      (updateBasePoint cfg geo now s1).map (fun s2 => (true, s2))
    else some (true, s1)
  else if cfg.validityPeriod < now - s.lastBasePointTime then
    some (true, { s with slidingWindow := [p], validPoints := s.validPoints ++ [p],
                         basePoint := none, basePointRadius := 0,
                         consecutiveDriftPoints := [] })
  else if isDriftPoint cfg geo s.basePoint s.basePointRadius p then
    let buf := capPush cfg.maxDriftSequence s.consecutiveDriftPoints p
    if 3 ≤ buf.length ∧ isLinearMotion cfg geo s.basePoint s.basePointRadius buf = true then
      let s1 := buf.foldl (recoveryStep cfg.windowSize)
        { s with consecutiveDriftPoints := buf }
      let s2 := { s1 with consecutiveDriftPoints := [] }
      (updateBasePoint cfg geo now s2).map (fun s3 =>
        (true, { s3 with basePointRebuildsCount := s3.basePointRebuildsCount + 1,
                         basePointRebuildPositions := s3.basePointRebuildPositions ++ [p] }))
    else if cfg.maxDriftSequence ≤ buf.length then
      (updateBasePoint cfg geo now
          { s with slidingWindow := buf, consecutiveDriftPoints := [] }).map (fun s2 =>
        (true, { s2 with basePointRebuildsCount := s2.basePointRebuildsCount + 1,
                         basePointRebuildPositions := s2.basePointRebuildPositions ++ [p],
                         validPoints := s2.validPoints ++ [p] }))
    else
      some (false, { s with consecutiveDriftPoints := buf,
                            discardedDriftPointsCount := s.discardedDriftPointsCount + 1 })
  else
    let s1 := { s with consecutiveDriftPoints := [],
                       slidingWindow := capPush cfg.windowSize s.slidingWindow p,
                       validPoints := s.validPoints ++ [p] }
    (updateBasePoint cfg geo now s1).map (fun s2 => (true, s2))

/-- The per-point loop of GPSProcessor.processTrajectory: process the points
in order; the clock gives the Date.now() value observed by the i-th call.
Returns the list of per-point boolean verdicts together with the final
state. -/
def runPoints (cfg : ProcessorConfig) (geo : GeoKernel) (clock : ℕ → ℤ) :
    ℕ → ProcessorState → List GPSPoint → Option (List Bool × ProcessorState)
  | _, s, [] => some ([], s)
  | i, s, p :: ps =>
      (processPoint cfg geo (clock i) s p).bind fun r =>
        (runPoints cfg geo clock (i + 1) r.2 ps).map fun x => (r.1 :: x.1, x.2)

/-- The points of `pts` whose aligned verdict in `ds` equals `b`, in order:
the sublist a loop `if (processPoint(p) == b) out.push(p)` accumulates. -/
def selectDecided (b : Bool) (pts : List GPSPoint) (ds : List Bool) : List GPSPoint :=
  ((pts.zip ds).filter (fun x => x.2 == b)).map (fun x => x.1)

/-- The `{originalPoints, processedPoints, filteredPoints}` result record of
GPSProcessor.processTrajectory and of the analyzer ProcessingResult. -/
structure ProcessedResult where
  originalPoints : List GPSPoint
  processedPoints : List GPSPoint
  filteredPoints : List GPSPoint
deriving DecidableEq, Repr

/-- GPSProcessor.processTrajectory: reset the whole state, loop processPoint
over the input pushing accepted points into a single filteredPoints array, and
return that one array as both processedPoints and filteredPoints. -/
def processTrajectory (cfg : ProcessorConfig) (geo : GeoKernel) (clock : ℕ → ℤ)
    (pts : List GPSPoint) : Option (ProcessedResult × ProcessorState) :=
  (runPoints cfg geo clock 0 initialState pts).map (fun x =>
    ({ originalPoints := pts,
       processedPoints := selectDecided true pts x.1,
       filteredPoints := selectDecided true pts x.1 }, x.2))

/-! ## GpsTrajectoryAnalyzer (gpsTrajectoryAnalyzer.ts) -/

/-- JS `array.slice(-n)`: the last n elements.  JS evaluates `-0 === 0`, so
`slice(-0)` is the whole array. -/
def jsSliceLast {α : Type} (n : ℕ) (l : List α) : List α :=
  if n = 0 then l else l.drop (l.length - n)

/-- The WindowPoint record of the analyzer: a point plus its classification
flags.  The source also tags each internal point with its input index, which
no processing logic reads, so the tag is dropped here. -/
structure WindowPoint where
  point : GPSPoint
  isValid : Bool
  isDrift : Bool
deriving DecidableEq, Repr

/-- The BasePointInfo record of the analyzer. -/
structure BasePointInfo where
  point : GPSPoint
  radius : ℚ
  createdAt : ℤ
  validPointsCount : ℕ
deriving DecidableEq, Repr

/-- The mutable fields of class GpsTrajectoryAnalyzer.  filteredCount and
driftCount are decremented by the linear-motion recovery, so they are modelled
as integers. -/
structure AnalyzerState where
  slidingWindow : List WindowPoint
  validPoints : List GPSPoint
  basePoint : Option BasePointInfo
  consecutiveDriftCount : ℕ
  processedCount : ℕ
  filteredCount : ℤ
  driftCount : ℤ
  basePointRebuilds : ℕ
deriving DecidableEq, Repr

/-- The state reset() installs. -/
def analyzerInitialState : AnalyzerState :=
  { slidingWindow := [], validPoints := [], basePoint := none,
    consecutiveDriftCount := 0, processedCount := 0, filteredCount := 0,
    driftCount := 0, basePointRebuilds := 0 }

/-- GpsTrajectoryAnalyzer.addToSlidingWindow: push the point with cleared
flags and evict the oldest entry beyond windowSize. -/
def addToSlidingWindow (cfg : ProcessorConfig) (s : AnalyzerState)
    (p : GPSPoint) : AnalyzerState :=
  let wp : WindowPoint := { point := p, isValid := false, isDrift := false }
  { s with slidingWindow := capPush cfg.windowSize s.slidingWindow wp }

/-- GpsTrajectoryAnalyzer.checkBasePointExpiry: drop the base point when the
timestamp of the current fix exceeds createdAt by more than the validity
period.  Note the mixed clocks of the source: createdAt is a Date.now() value
while currentTimestamp is the timestamp of the fix. -/
def checkBasePointExpiry (cfg : ProcessorConfig) (s : AnalyzerState)
    (currentTimestamp : ℤ) : AnalyzerState :=
  match s.basePoint with
  | none => s
  | some bp =>
      if cfg.validityPeriod < currentTimestamp - bp.createdAt then
        { s with basePoint := none }
      else s

/-- GpsTrajectoryAnalyzer.isDriftPoint: false without a base point, otherwise
a drift exactly when the kernel distance to the base point exceeds radius
times the drift threshold multiplier (no zero-radius escape here, unlike
GPSProcessor). -/
def isDriftPointA (cfg : ProcessorConfig) (geo : GeoKernel)
    (s : AnalyzerState) (p : GPSPoint) : Bool :=
  match s.basePoint with
  | none => false
  | some bp => decide (bp.radius * cfg.driftThresholdMultiplier < geo.dist p bp.point)

/-- Update the last sliding-window entry in place, the
`this.slidingWindow[this.slidingWindow.length - 1]` idiom of the source; a
no-op on an empty window. -/
def markLast (w : List WindowPoint) (f : WindowPoint → WindowPoint) :
    List WindowPoint :=
  match w.getLast? with
  | none => w
  | some lastEntry => w.dropLast ++ [f lastEntry]

/-- GpsTrajectoryAnalyzer.calculateCentroid: arithmetic mean of lat and of
lng, stamped with Date.now(); `none` models the exception on an empty set. -/
def calculateCentroid (now : ℤ) (points : List GPSPoint) : Option GPSPoint :=
  if points.length = 0 then none
  else
    some { lat := (points.map (fun p => p.lat)).sum / points.length,
           lng := (points.map (fun p => p.lng)).sum / points.length,
           timestamp := now }

/-- GpsTrajectoryAnalyzer.calculateRadius: 50 on an empty set, otherwise the
median of the sorted kernel distances from the points to the center. -/
def calculateRadius (geo : GeoKernel) (points : List GPSPoint)
    (center : GPSPoint) : ℚ :=
  if points.length = 0 then 50
  else
    let distances := (points.map (fun p => geo.dist p center)).insertionSort (· ≤ ·)
    let midIndex := distances.length / 2
    if distances.length % 2 = 0 then
      (distances.getD (midIndex - 1) 0 + distances.getD midIndex 0) / 2
    else distances.getD midIndex 0

/-- GpsTrajectoryAnalyzer.updateBasePoint: create the initial base point from
all valid points once at least 3 exist, clamping the radius to at least 50 m;
with a base point present, refresh its point, radius (again clamped to 50) and
source count from the last windowSize valid points, keeping createdAt. -/
def analyzerUpdateBasePoint (cfg : ProcessorConfig) (geo : GeoKernel)
    (now : ℤ) (s : AnalyzerState) : Option AnalyzerState :=
  match s.basePoint with
  | none =>
      if 3 ≤ s.validPoints.length then
        match calculateCentroid now s.validPoints with
        | none => none
        | some c =>
            some { s with basePoint := some ({ point := c,
                                                radius := max (calculateRadius geo s.validPoints c) 50,
                                                createdAt := now,
                                                validPointsCount := s.validPoints.length }) }
      else some s
  | some bp =>
      let recent := jsSliceLast cfg.windowSize s.validPoints
      match calculateCentroid now recent with
      | none => none
      | some c =>
          some { s with basePoint := some ({ bp with
                                              point := c,
                                              radius := max (calculateRadius geo recent c) 50,
                                              validPointsCount := recent.length }) }

/-- GpsTrajectoryAnalyzer.rebuildBasePoint: bump the rebuild counter, and when
any recent valid points exist install a fresh base point from their centroid
with the radius clamped to at least 50 m and createdAt set to Date.now(). -/
def rebuildBasePoint (cfg : ProcessorConfig) (geo : GeoKernel) (now : ℤ)
    (s : AnalyzerState) : Option AnalyzerState :=
  let s1 := { s with basePointRebuilds := s.basePointRebuilds + 1 }
  let recent := jsSliceLast cfg.windowSize s1.validPoints
  if recent.length = 0 then some s1
  else
    match calculateCentroid now recent with
    | none => none
    | some c =>
        some { s1 with basePoint := some ({ point := c,
                                             radius := max (calculateRadius geo recent c) 50,
                                             createdAt := now,
                                             validPointsCount := recent.length }) }

/-- The loop of GpsTrajectoryAnalyzer.isLinearMotionMisjudgment over
consecutive point triples: false as soon as one minimum triangle angle
exceeds the threshold, true when every triple passes. -/
def noSharpTurn (geo : GeoKernel) (threshold : ℚ) : List GPSPoint → Bool
  | p :: q :: r :: rest =>
      if threshold < geo.minAngle p q r then false
      else noSharpTurn geo threshold (q :: r :: rest)
  | _ => true

/-- GpsTrajectoryAnalyzer.isLinearMotionMisjudgment: false with fewer than 3
window entries, otherwise scan the last min(maxDriftSequence, window length)
window points and report a misjudged straight line when no consecutive triple
bends by more than the angle threshold. -/
def isLinearMotionMisjudgment (cfg : ProcessorConfig) (geo : GeoKernel)
    (s : AnalyzerState) : Bool :=
  if s.slidingWindow.length < 3 then false
  else
    let recentPoints :=
      (jsSliceLast (min cfg.maxDriftSequence s.slidingWindow.length)
        s.slidingWindow).map (fun wp => wp.point)
    if recentPoints.length < 3 then false
    else noSharpTurn geo cfg.linearMotionAngleThreshold recentPoints

/-- GpsTrajectoryAnalyzer.recoverFromLinearMotion: re-accept the drift-flagged
points among the last consecutiveDriftCount window entries, decrementing the
filtered and drift counters for each, then refresh the base point. -/
def recoverFromLinearMotion (cfg : ProcessorConfig) (geo : GeoKernel)
    (now : ℤ) (s : AnalyzerState) : Option AnalyzerState :=
  let recentDriftPoints :=
    ((jsSliceLast s.consecutiveDriftCount s.slidingWindow).filter
      (fun wp => wp.isDrift)).map (fun wp => wp.point)
  let s1 := recentDriftPoints.foldl (fun t q =>
    { t with validPoints := t.validPoints ++ [q],
             filteredCount := t.filteredCount - 1,
             driftCount := t.driftCount - 1 }) s
  analyzerUpdateBasePoint cfg geo now s1

/-- GpsTrajectoryAnalyzer.handleConsecutiveDrift: recover when the recent
window looks like straight-line motion, otherwise rebuild the base point; in
both cases end with a cleared consecutive-drift counter. -/
def handleConsecutiveDrift (cfg : ProcessorConfig) (geo : GeoKernel)
    (now : ℤ) (s : AnalyzerState) : Option AnalyzerState :=
  let t :=
    if isLinearMotionMisjudgment cfg geo s then recoverFromLinearMotion cfg geo now s
    else rebuildBasePoint cfg geo now s
  t.map (fun u => { u with consecutiveDriftCount := 0 })

/-- GpsTrajectoryAnalyzer.handleDriftPoint: bump the consecutive-drift, drift
and filtered counters, flag the newest window entry as drift, and run the
consecutive-drift analysis once the counter reaches maxDriftSequence. -/
def handleDriftPoint (cfg : ProcessorConfig) (geo : GeoKernel) (now : ℤ)
    (s : AnalyzerState) : Option AnalyzerState :=
  let s1 := { s with consecutiveDriftCount := s.consecutiveDriftCount + 1,
                     driftCount := s.driftCount + 1,
                     filteredCount := s.filteredCount + 1 }
  let s2 := { s1 with slidingWindow :=
                markLast s1.slidingWindow (fun wp => { wp with isDrift := true }) }
  if cfg.maxDriftSequence ≤ s2.consecutiveDriftCount then
    handleConsecutiveDrift cfg geo now s2
  else some s2

/-- GpsTrajectoryAnalyzer.handleValidPoint: clear the consecutive-drift
counter, append the point to validPoints, flag the newest window entry as
valid, and update or create the base point. -/
def handleValidPoint (cfg : ProcessorConfig) (geo : GeoKernel) (now : ℤ)
    (s : AnalyzerState) (p : GPSPoint) : Option AnalyzerState :=
  let s1 := { s with consecutiveDriftCount := 0,
                     validPoints := s.validPoints ++ [p] }
  let s2 := { s1 with slidingWindow :=
                markLast s1.slidingWindow (fun wp => { wp with isValid := true }) }
  analyzerUpdateBasePoint cfg geo now s2

/-- GpsTrajectoryAnalyzer.processPoint: count the input, add it to the sliding
window, expire the base point if stale, classify against the base point, and
dispatch to the drift or valid handler.  Rejected points answer false.  Note
that the drift branch increments consecutiveDriftCount here and again inside
handleDriftPoint, so each rejection advances the counter by two. -/
def analyzerProcessPoint (cfg : ProcessorConfig) (geo : GeoKernel) (now : ℤ)
    (s : AnalyzerState) (p : GPSPoint) : Option (Bool × AnalyzerState) :=
  let s1 := { s with processedCount := s.processedCount + 1 }
  let s2 := addToSlidingWindow cfg s1 p
  let s3 := checkBasePointExpiry cfg s2 p.timestamp
  if isDriftPointA cfg geo s3 p then
    let s4 := { s3 with consecutiveDriftCount := s3.consecutiveDriftCount + 1 }
    (handleDriftPoint cfg geo now s4).map (fun t => (false, t))
  else
    let s4 := { s3 with consecutiveDriftCount := 0 }
    (handleValidPoint cfg geo now s4 p).map (fun t => (true, t))

/-- The per-point loop of GpsTrajectoryAnalyzer.processTrajectory. -/
def analyzerRun (cfg : ProcessorConfig) (geo : GeoKernel) (clock : ℕ → ℤ) :
    ℕ → AnalyzerState → List GPSPoint → Option (List Bool × AnalyzerState)
  | _, s, [] => some ([], s)
  | i, s, p :: ps =>
      (analyzerProcessPoint cfg geo (clock i) s p).bind fun r =>
        (analyzerRun cfg geo clock (i + 1) r.2 ps).map fun x => (r.1 :: x.1, x.2)

/-- GpsTrajectoryAnalyzer.processTrajectory: reset, loop processPoint over the
input pushing each point into processedPoints when accepted and into
filteredPoints when rejected, and return both lists (markers and statistics
are additional outputs not involved in the claims below). -/
def analyzerProcessTrajectory (cfg : ProcessorConfig) (geo : GeoKernel)
    (clock : ℕ → ℤ) (pts : List GPSPoint) :
    Option (ProcessedResult × AnalyzerState) :=
  (analyzerRun cfg geo clock 0 analyzerInitialState pts).map (fun x =>
    ({ originalPoints := pts,
       processedPoints := selectDecided true pts x.1,
       filteredPoints := selectDecided false pts x.1 }, x.2))

/-! ## Minimum triangle angle (three implementations in the source) -/

/-- GpsTrajectoryAnalyzer.calculateMinAngleInTriangle, parameterised over the
distance kernel and over acosDeg, the composite of Math.acos with the
radians-to-degrees conversion (a transcendental map the rationals cannot
express).  The three sides are measured with dist; a zero side
short-circuits to 0; otherwise the three law-of-cosines angles are computed
and the smallest returned. -/
def calculateMinAngleAnalyzer (dist : GPSPoint → GPSPoint → ℚ)
    (acosDeg : ℚ → ℚ) (p1 p2 p3 : GPSPoint) : ℚ :=
  let a := dist p2 p3
  let b := dist p1 p3
  let c := dist p1 p2
  if a = 0 ∨ b = 0 ∨ c = 0 then 0
  else
    let angleA := acosDeg ((b * b + c * c - a * a) / (2 * b * c))
    let angleB := acosDeg ((a * a + c * c - b * b) / (2 * a * c))
    let angleC := acosDeg ((a * a + b * b - c * c) / (2 * a * b))
    min (min angleA angleB) angleC

/-- GPSProcessor.calculateMinAngleInTriangle and
GPSCore.calculateMinAngleInTriangle: the same computation without the
zero-side guard.  When a side is 0 some law-of-cosines denominator is 0; in
JavaScript that division yields NaN or an infinity, Math.acos of it is NaN,
and Math.min propagates the NaN, so the call returns NaN rather than a
number: that outcome is modelled as none. -/
def calculateMinAngleProcessor (dist : GPSPoint → GPSPoint → ℚ)
    (acosDeg : ℚ → ℚ) (p1 p2 p3 : GPSPoint) : Option ℚ :=
  let a := dist p2 p3
  let b := dist p1 p3
  let c := dist p1 p2
  if 2 * b * c = 0 ∨ 2 * a * c = 0 ∨ 2 * a * b = 0 then none
  else
    some (min (min (acosDeg ((b * b + c * c - a * a) / (2 * b * c)))
                   (acosDeg ((a * a + c * c - b * b) / (2 * a * c))))
              (acosDeg ((a * a + b * b - c * c) / (2 * a * b))))

/-! ## GPSDataConverter / GPSCore parseTimestamp -/

/-- The numeric fast path of GPSDataConverter.parseTimestamp and
GPSCore.parseTimestamp, for a token that parseFloat reads as the number n.
Source: n is taken as seconds (returning n * 1000) when
946684800 < n < 946684800 * 1000 (both strict), as milliseconds (returning n)
when n > 946684800 * 1000; every other numeric value falls through to the
`new Date(string)` civil-datetime parser, modelled here as none. -/
def parseTimestampNumeric (n : ℚ) : Option ℚ :=
  let year2000Timestamp : ℚ := 946684800
  if year2000Timestamp < n ∧ n < year2000Timestamp * 1000 then some (n * 1000)
  else if year2000Timestamp * 1000 < n then some n
  else none

/-! ## GPSSimulationGenerator (two variants coexist in the source) -/

/-- The anomaly kinds of the simulator. -/
inductive DriftKind where
  | staticDrift
  | movingDrift
  | tunnel
  | speed
deriving DecidableEq, Repr

/-- The DriftConfig record of the simulator. -/
structure DriftConfig where
  kind : DriftKind
  startIndex : ℕ
  endIndex : ℕ
  distance : ℚ
  direction : ℚ
  intensity : ℚ
deriving DecidableEq, Repr

/-- The SimulationOptions record, after the `{...DEFAULT, ...options}` merge:
four anomaly counts, the absolute displacement bounds, and the piecewise
displacement distribution recorded as (weight, low, high) bands. -/
structure SimulationOptions where
  staticDriftCount : ℕ
  movingDriftCount : ℕ
  tunnelCount : ℕ
  speedScenarioCount : ℕ
  driftDistanceRange : ℚ × ℚ
  driftDistribution : List (ℚ × ℚ × ℚ)
deriving DecidableEq, Repr

/-- The body of the overlap-adjustment loop of generateDriftConfigs: when a
config starts before the previous one ends, push its start just past that
end, and when this empties the range move its end to
min(start + 10, dataLength - 1). -/
def adjustStep (dataLength : ℕ) (prev c : DriftConfig) : DriftConfig :=
  if c.startIndex < prev.endIndex then
    let c1 := { c with startIndex := prev.endIndex + 1 }
    if c1.endIndex ≤ c1.startIndex then
      { c1 with endIndex := min (c1.startIndex + 10) (dataLength - 1) }
    else c1
  else c

/-- The overlap-adjustment loop from index 1 onward; each comparison uses the
already-adjusted predecessor, as the in-place JS loop does. -/
def adjustOverlapsFrom (dataLength : ℕ) (prev : DriftConfig) :
    List DriftConfig → List DriftConfig
  | [] => []
  | c :: rest =>
      let c1 := adjustStep dataLength prev c
      c1 :: adjustOverlapsFrom dataLength c1 rest

/-- The whole overlap-adjustment pass (index 0 is never modified). -/
def adjustOverlaps (dataLength : ℕ) : List DriftConfig → List DriftConfig
  | [] => []
  | c :: rest => c :: adjustOverlapsFrom dataLength c rest

/-- GPSSimulationGenerator.generateDriftConfigs: one config per requested
anomaly of each kind, sorted by start index (JS sort is stable), overlap
adjusted, and stripped of empty ranges.  Each loop iteration builds its
config from Math.random draws (the process-wide PRNG the spec flags as a
defect); those per-iteration draws are abstracted as the four mk functions,
while the loop, sort, adjustment and filter structure is embedded
concretely. -/
def generateDriftConfigs (mkStatic mkMoving mkTunnel mkSpeed : ℕ → DriftConfig)
    (dataLength : ℕ) (opts : SimulationOptions) : List DriftConfig :=
  let configs :=
    (List.range opts.staticDriftCount).map mkStatic
      ++ (List.range opts.movingDriftCount).map mkMoving
      ++ (List.range opts.tunnelCount).map mkTunnel
      ++ (List.range opts.speedScenarioCount).map mkSpeed
  let sorted := configs.insertionSort (fun a b => a.startIndex ≤ b.startIndex)
  (adjustOverlaps dataLength sorted).filter (fun c => c.startIndex < c.endIndex)

/-- The final `sort((a, b) => a.timestamp - b.timestamp)` of the simulated
points: a stable ascending sort by timestamp. -/
def sortByTimestamp (pts : List GPSPoint) : List GPSPoint :=
  pts.insertionSort (fun a b => a.timestamp ≤ b.timestamp)

/-- The dedup step of the second generateSimulatedData variant: a Map keyed by
the string `lat,lng,timestamp`.  Map.set keeps the first insertion position
and replaces the stored value; the key determines the whole point, so the
replaced value is identical and the pass keeps the first occurrence of each
key. -/
def dedupByKey (pts : List GPSPoint) : List GPSPoint :=
  pts.foldl (fun acc p => if p ∈ acc then acc else acc ++ [p]) []

/-- First GPSSimulationGenerator.generateSimulatedData variant: copy the
baseline, apply every drift config in order, and sort by timestamp.
applyEffect abstracts applyDriftEffect, whose body draws from Math.random and
computes trigonometric offsets; the empty-input early return, the config
generation and the application loop are embedded concretely.  Markers are a
second output not involved in the claims. -/
def generateSimulatedData1
    (applyEffect : List GPSPoint → DriftConfig → List GPSPoint)
    (mkStatic mkMoving mkTunnel mkSpeed : ℕ → DriftConfig)
    (opts : SimulationOptions) (originalData : List GPSPoint) : List GPSPoint :=
  if originalData.length = 0 then []
  else
    let driftConfigs :=
      generateDriftConfigs mkStatic mkMoving mkTunnel mkSpeed
        originalData.length opts
    sortByTimestamp (driftConfigs.foldl applyEffect originalData)

/-- Second GPSSimulationGenerator.generateSimulatedData variant: same
pipeline, except that each point carries the transient isDeleted tag the
effects may set; tagged points are dropped, the tag removed, and the sorted
result deduplicated by the (lat, lng, timestamp) key. -/
def generateSimulatedData2
    (applyEffect : List (GPSPoint × Bool) → DriftConfig → List (GPSPoint × Bool))
    (mkStatic mkMoving mkTunnel mkSpeed : ℕ → DriftConfig)
    (opts : SimulationOptions) (originalData : List GPSPoint) : List GPSPoint :=
  if originalData.length = 0 then []
  else
    let driftConfigs :=
      generateDriftConfigs mkStatic mkMoving mkTunnel mkSpeed
        originalData.length opts
    let tagged := driftConfigs.foldl applyEffect
      (originalData.map (fun p => (p, false)))
    let filteredPoints := (tagged.filter (fun t => !t.2)).map (fun t => t.1)
    dedupByKey (sortByTimestamp filteredPoints)

/-! ## Concrete fixtures for witnesses and counterexamples -/

/-- A Date.now() clock that always reads 0. -/
def clock0 : ℕ → ℤ := fun _ => 0

def fix00 : GPSPoint := { lat := 0, lng := 0, timestamp := 0 }

def fix01 : GPSPoint := { lat := 0, lng := 0, timestamp := 1 }

def fix02 : GPSPoint := { lat := 0, lng := 0, timestamp := 2 }

def fix03 : GPSPoint := { lat := 0, lng := 0, timestamp := 3 }

def fix04 : GPSPoint := { lat := 0, lng := 0, timestamp := 4 }

/-- A fix 200 units from the origin, far past every drift threshold used
below. -/
def fixFar : GPSPoint := { lat := 200, lng := 0, timestamp := 3 }

def fix21 : GPSPoint := { lat := 2, lng := 0, timestamp := 1 }

def fix102 : GPSPoint := { lat := 10, lng := 0, timestamp := 2 }

def pD3 : GPSPoint := { lat := 3, lng := 0, timestamp := 3 }

def pD4 : GPSPoint := { lat := 4, lng := 0, timestamp := 4 }

def pD5 : GPSPoint := { lat := 5, lng := 0, timestamp := 5 }

def pT30 : GPSPoint := { lat := 30, lng := 0, timestamp := 5 }

def pT31 : GPSPoint := { lat := 31, lng := 0, timestamp := 6 }

def pT32 : GPSPoint := { lat := 32, lng := 0, timestamp := 7 }

def pS11 : GPSPoint := { lat := 11, lng := 0, timestamp := 3 }

def pS12 : GPSPoint := { lat := 12, lng := 0, timestamp := 4 }

def pS13 : GPSPoint := { lat := 13, lng := 0, timestamp := 5 }

def cfgW3 : ProcessorConfig := { defaultConfig with windowSize := 3 }

def cfgW2 : ProcessorConfig := { defaultConfig with windowSize := 2 }

def cfgW2M2 : ProcessorConfig :=
  { defaultConfig with windowSize := 2, maxDriftSequence := 2 }

def cfgW2M4 : ProcessorConfig :=
  { defaultConfig with windowSize := 2, maxDriftSequence := 4 }

def cfgW5M3 : ProcessorConfig :=
  { defaultConfig with windowSize := 5, maxDriftSequence := 3 }

/-- Processor state with a full 3-slot window at the origin, base at the
origin with radius 1, and two buffered drift fixes on a straight line. -/
def sC3 : ProcessorState :=
  { slidingWindow := [fix00, fix01, fix02], validPoints := [fix00, fix01, fix02],
    lastBasePointTime := 0, basePoint := some fix00, basePointRadius := 1,
    consecutiveDriftPoints := [pD3, pD4], discardedDriftPointsCount := 2,
    basePointRebuildsCount := 0, basePointRebuildPositions := [] }

/-- Processor state one drift short of the forced rebuild under cfgW2M2. -/
def sC4w : ProcessorState :=
  { slidingWindow := [fix00, fix01], validPoints := [fix00, fix01],
    lastBasePointTime := 0, basePoint := some fix00, basePointRadius := 1,
    consecutiveDriftPoints := [pT30], discardedDriftPointsCount := 1,
    basePointRebuildsCount := 0, basePointRebuildPositions := [] }

/-- Processor state under cfgW5M3 (maxDriftSequence below windowSize): the
next drift forces a rebuild whose seeded window is underfull. -/
def sC4 : ProcessorState :=
  { slidingWindow := [fix00, fix01, fix02, fix03, fix04],
    validPoints := [fix00, fix01, fix02, fix03, fix04],
    lastBasePointTime := 0, basePoint := some fix00, basePointRadius := 1,
    consecutiveDriftPoints := [pT30, pT31], discardedDriftPointsCount := 2,
    basePointRebuildsCount := 0, basePointRebuildPositions := [] }

/-- The processor state after one warmup fix under the default config. -/
def sOne : ProcessorState :=
  { slidingWindow := [fix00], validPoints := [fix00], lastBasePointTime := 0,
    basePoint := none, basePointRadius := 0, consecutiveDriftPoints := [],
    discardedDriftPointsCount := 0, basePointRebuildsCount := 0,
    basePointRebuildPositions := [] }

def sixFixes : List GPSPoint := [fix00, fix21, fix102, pS11, pS12, pS13]

def threePt : List GPSPoint := [fix00, fix21, fix102]

def rP1 : ProcessedResult :=
  { originalPoints := [fix00], processedPoints := [fix00],
    filteredPoints := [fix00] }

def rA1 : ProcessedResult :=
  { originalPoints := [fix00], processedPoints := [fix00], filteredPoints := [] }

def wp00v : WindowPoint := { point := fix00, isValid := true, isDrift := false }

def wp01v : WindowPoint := { point := fix01, isValid := true, isDrift := false }

def wp02v : WindowPoint := { point := fix02, isValid := true, isDrift := false }

/-- The analyzer state after one accepted fix. -/
def tA1 : AnalyzerState :=
  { slidingWindow := [wp00v], validPoints := [fix00], basePoint := none,
    consecutiveDriftCount := 0, processedCount := 1, filteredCount := 0,
    driftCount := 0, basePointRebuilds := 0 }

/-- The base point the analyzer creates from three coincident origin fixes:
median distance 0 clamped to radius 50. -/
def bpA50 : BasePointInfo :=
  { point := fix00, radius := 50, createdAt := 0, validPointsCount := 3 }

/-- The analyzer state after three accepted origin fixes. -/
def tA3 : AnalyzerState :=
  { slidingWindow := [wp00v, wp01v, wp02v], validPoints := [fix00, fix01, fix02],
    basePoint := some bpA50, consecutiveDriftCount := 0, processedCount := 3,
    filteredCount := 0, driftCount := 0, basePointRebuilds := 0 }

/-- Simulation options requesting zero anomalies of every kind. -/
def zeroOpts : SimulationOptions :=
  { staticDriftCount := 0, movingDriftCount := 0, tunnelCount := 0,
    speedScenarioCount := 0, driftDistanceRange := (100, 500),
    driftDistribution := [] }

def noCfg : ℕ → DriftConfig := fun _ =>
  { kind := DriftKind.staticDrift, startIndex := 0, endIndex := 0,
    distance := 0, direction := 0, intensity := 0 }

def idEffect1 : List GPSPoint → DriftConfig → List GPSPoint := fun l _ => l

def idEffect2 :
    List (GPSPoint × Bool) → DriftConfig → List (GPSPoint × Bool) := fun l _ => l

def pDup1 : GPSPoint := { lat := 1, lng := 0, timestamp := 5 }

def pDup2 : GPSPoint := { lat := 2, lng := 0, timestamp := 3 }

/-- A baseline with a duplicated point and out-of-order timestamps. -/
def dupFixes : List GPSPoint := [pDup1, pDup2, pDup2]

/-- The analyzer state after two accepted origin fixes. -/
def tA2 : AnalyzerState :=
  { slidingWindow := [wp00v, wp01v], validPoints := [fix00, fix01],
    basePoint := none, consecutiveDriftCount := 0, processedCount := 2,
    filteredCount := 0, driftCount := 0, basePointRebuilds := 0 }

def wpFarD : WindowPoint := { point := fixFar, isValid := false, isDrift := true }

/-- The analyzer state after three accepted origin fixes and one rejected
far fix (the counter advances by two per rejection). -/
def tA4 : AnalyzerState :=
  { slidingWindow := [wp00v, wp01v, wp02v, wpFarD],
    validPoints := [fix00, fix01, fix02], basePoint := some bpA50,
    consecutiveDriftCount := 2, processedCount := 4, filteredCount := 1,
    driftCount := 1, basePointRebuilds := 0 }

/-- The processor base point after a 2-fix warmup at lat 0 and 2: the median
point, stamped with Date.now() = 0. -/
def bpMed : GPSPoint := { lat := 1, lng := 0, timestamp := 0 }

/-- Processor state after warming up on fix00 and fix21 with windowSize 2. -/
def sP2 : ProcessorState :=
  { slidingWindow := [fix00, fix21], validPoints := [fix00, fix21],
    lastBasePointTime := 0, basePoint := some bpMed, basePointRadius := 1,
    consecutiveDriftPoints := [], discardedDriftPointsCount := 0,
    basePointRebuildsCount := 0, basePointRebuildPositions := [] }

/-- sP2 after one rejected drift fix. -/
def sP3 : ProcessorState :=
  { slidingWindow := [fix00, fix21], validPoints := [fix00, fix21],
    lastBasePointTime := 0, basePoint := some bpMed, basePointRadius := 1,
    consecutiveDriftPoints := [fix102], discardedDriftPointsCount := 1,
    basePointRebuildsCount := 0, basePointRebuildPositions := [] }

/-- sP3 after a second rejected drift fix. -/
def sQ4 : ProcessorState :=
  { slidingWindow := [fix00, fix21], validPoints := [fix00, fix21],
    lastBasePointTime := 0, basePoint := some bpMed, basePointRadius := 1,
    consecutiveDriftPoints := [fix102, pS11], discardedDriftPointsCount := 2,
    basePointRebuildsCount := 0, basePointRebuildPositions := [] }

/-- sQ4 after a third rejected drift fix. -/
def sQ5 : ProcessorState :=
  { slidingWindow := [fix00, fix21], validPoints := [fix00, fix21],
    lastBasePointTime := 0, basePoint := some bpMed, basePointRadius := 1,
    consecutiveDriftPoints := [fix102, pS11, pS12],
    discardedDriftPointsCount := 3,
    basePointRebuildsCount := 0, basePointRebuildPositions := [] }

/-- The median of the 4-point drift buffer seeded into the window by the
forced rebuild of the C5 counterexample run. -/
def bpMed2 : GPSPoint := { lat := 23/2, lng := 0, timestamp := 0 }

/-- The processor state after the forced rebuild of the C5 counterexample
run: the window holds the 4 buffered fixes although windowSize is 2. -/
def sQ6 : ProcessorState :=
  { slidingWindow := [fix102, pS11, pS12, pS13],
    validPoints := [fix00, fix21, pS13], lastBasePointTime := 0,
    basePoint := some bpMed2, basePointRadius := 3/2,
    consecutiveDriftPoints := [], discardedDriftPointsCount := 3,
    basePointRebuildsCount := 1, basePointRebuildPositions := [pS13] }

/-! ## Supporting lemmas -/

theorem capPush_length_le {α : Type} (W : ℕ) (w : List α) (q : α)
    (h : w.length ≤ W) : (capPush W w q).length ≤ W := by
  unfold capPush
  split
  · simpa using h
  · next h2 =>
      simp only [List.length_append, List.length_singleton] at h2 ⊢
      omega

theorem capPush_length_of_ge {α : Type} (W : ℕ) (w : List α) (q : α)
    (h : W ≤ w.length) : (capPush W w q).length = w.length := by
  unfold capPush
  rw [if_pos (by simp; omega)]
  simp

theorem foldl_capPush_length_le {α : Type} (W : ℕ) (buf : List α) :
    ∀ w : List α, w.length ≤ W → (buf.foldl (capPush W) w).length ≤ W := by
  induction buf with
  | nil => intro w h; simpa using h
  | cons q rest ih => intro w h; exact ih _ (capPush_length_le W w q h)

theorem foldl_capPush_length_of_ge {α : Type} (W : ℕ) (buf : List α) :
    ∀ w : List α, W ≤ w.length → (buf.foldl (capPush W) w).length = w.length := by
  induction buf with
  | nil => intro w _; simp
  | cons q rest ih =>
      intro w h
      rw [List.foldl_cons, ih _ (by rw [capPush_length_of_ge W w q h]; exact h),
        capPush_length_of_ge W w q h]

theorem calculateMedianPoint_isSome (now : ℤ) (points : List GPSPoint)
    (h : points ≠ []) : (calculateMedianPoint now points).isSome := by
  unfold calculateMedianPoint
  rw [if_neg (by simpa using h)]
  rfl

theorem updateBasePoint_of_lt (cfg : ProcessorConfig) (geo : GeoKernel)
    (now : ℤ) (s : ProcessorState) (h : s.slidingWindow.length < cfg.windowSize) :
    updateBasePoint cfg geo now s = some s := by
  unfold updateBasePoint
  rw [if_neg (not_le.mpr h)]

theorem updateBasePoint_of_le (cfg : ProcessorConfig) (geo : GeoKernel)
    (now : ℤ) (s : ProcessorState) (hle : cfg.windowSize ≤ s.slidingWindow.length)
    (hne : s.slidingWindow ≠ []) :
    ∃ m, calculateMedianPoint now s.slidingWindow = some m ∧
      updateBasePoint cfg geo now s =
        some { s with basePoint := some m, lastBasePointTime := now,
                      basePointRadius :=
                        calculateBasePointRadius cfg geo s.slidingWindow (some m) } := by
  obtain ⟨m, hm⟩ := Option.isSome_iff_exists.mp (calculateMedianPoint_isSome now _ hne)
  refine ⟨m, hm, ?_⟩
  unfold updateBasePoint
  rw [if_pos hle, hm]

theorem updateBasePoint_fields (cfg : ProcessorConfig) (geo : GeoKernel)
    (now : ℤ) (s t : ProcessorState) (h : updateBasePoint cfg geo now s = some t) :
    t.slidingWindow = s.slidingWindow ∧ t.validPoints = s.validPoints ∧
    t.consecutiveDriftPoints = s.consecutiveDriftPoints ∧
    t.discardedDriftPointsCount = s.discardedDriftPointsCount ∧
    t.basePointRebuildsCount = s.basePointRebuildsCount ∧
    t.basePointRebuildPositions = s.basePointRebuildPositions := by
  unfold updateBasePoint at h
  split at h
  · split at h
    · exact absurd h (by simp)
    · obtain rfl := Option.some_injective _ h
      simp
  · obtain rfl := Option.some_injective _ h
    simp

theorem foldl_recoveryStep_eq (W : ℕ) (buf : List GPSPoint) :
    ∀ s : ProcessorState,
      buf.foldl (recoveryStep W) s =
        { s with validPoints := s.validPoints ++ buf,
                 slidingWindow := buf.foldl (capPush W) s.slidingWindow } := by
  induction buf with
  | nil => intro s; simp
  | cons q rest ih =>
      intro s
      rw [List.foldl_cons, ih]
      simp [recoveryStep]

theorem runPoints_append (cfg : ProcessorConfig) (geo : GeoKernel)
    (clock : ℕ → ℤ) (l1 l2 : List GPSPoint) :
    ∀ (i : ℕ) (s : ProcessorState),
      runPoints cfg geo clock i s (l1 ++ l2) =
        (runPoints cfg geo clock i s l1).bind fun x =>
          (runPoints cfg geo clock (i + l1.length) x.2 l2).map fun y =>
            (x.1 ++ y.1, y.2) := by
  induction l1 with
  | nil =>
      intro i s
      cases hr : runPoints cfg geo clock i s l2 with
      | none => simp [runPoints, hr]
      | some x => simp [runPoints, hr]
  | cons p rest ih =>
      intro i s
      simp only [List.cons_append, runPoints]
      cases hp : processPoint cfg geo (clock i) s p with
      | none => simp
      | some r =>
          have harith : i + 1 + rest.length = i + (p :: rest).length := by
            simp; omega
          cases hr : runPoints cfg geo clock (i + 1) r.2 rest with
          | none => simp [hr, ih (i + 1) r.2]
          | some x =>
              have harith2 : i + (rest.length + 1) = i + 1 + rest.length := by omega
              cases hl2 : runPoints cfg geo clock (i + 1 + rest.length) x.2 l2 with
              | none => simp [hr, ih (i + 1) r.2, harith2, hl2]
              | some y => simp [hr, ih (i + 1) r.2, harith2, hl2]

theorem runPoints_decisions_length (cfg : ProcessorConfig) (geo : GeoKernel)
    (clock : ℕ → ℤ) (pts : List GPSPoint) :
    ∀ (i : ℕ) (s : ProcessorState) (ds : List Bool) (t : ProcessorState),
      runPoints cfg geo clock i s pts = some (ds, t) → ds.length = pts.length := by
  induction pts with
  | nil =>
      intro i s ds t h
      simp only [runPoints, Option.some.injEq, Prod.mk.injEq] at h
      obtain ⟨rfl, rfl⟩ := h
      simp
  | cons p rest ih =>
      intro i s ds t h
      simp only [runPoints] at h
      rcases Option.bind_eq_some.mp h with ⟨r, hp, hm⟩
      rcases Option.map_eq_some'.mp hm with ⟨x, hr, heq⟩
      simp only [Prod.mk.injEq] at heq
      obtain ⟨rfl, rfl⟩ := heq
      simp [ih _ _ _ _ hr]

theorem processPoint_discarded (cfg : ProcessorConfig) (geo : GeoKernel)
    (now : ℤ) (s : ProcessorState) (p : GPSPoint) (b : Bool) (t : ProcessorState)
    (h : processPoint cfg geo now s p = some (b, t)) :
    t.discardedDriftPointsCount =
      s.discardedDriftPointsCount + (if b then 0 else 1) := by
  simp only [processPoint] at h
  repeat' split at h
  all_goals
    first
      | (rcases Option.map_eq_some'.mp h with ⟨u, hu, heq⟩
         simp only [Prod.mk.injEq] at heq
         obtain ⟨rfl, rfl⟩ := heq
         have hf := updateBasePoint_fields _ _ _ _ _ hu
         simp only [foldl_recoveryStep_eq] at hf
         simp [hf.2.2.2.1])
      | (simp only [Option.some.injEq, Prod.mk.injEq] at h
         obtain ⟨rfl, rfl⟩ := h
         simp)

theorem runPoints_discarded (cfg : ProcessorConfig) (geo : GeoKernel)
    (clock : ℕ → ℤ) (pts : List GPSPoint) :
    ∀ (i : ℕ) (s : ProcessorState) (ds : List Bool) (t : ProcessorState),
      runPoints cfg geo clock i s pts = some (ds, t) →
      t.discardedDriftPointsCount =
        s.discardedDriftPointsCount + ds.count false := by
  induction pts with
  | nil =>
      intro i s ds t h
      simp only [runPoints, Option.some.injEq, Prod.mk.injEq] at h
      obtain ⟨rfl, rfl⟩ := h
      simp
  | cons p rest ih =>
      intro i s ds t h
      simp only [runPoints] at h
      rcases Option.bind_eq_some.mp h with ⟨r, hp, hm⟩
      rcases Option.map_eq_some'.mp hm with ⟨x, hr, heq⟩
      simp only [Prod.mk.injEq] at heq
      obtain ⟨rfl, rfl⟩ := heq
      have hstep := processPoint_discarded cfg geo (clock i) s p r.1 r.2
        (by rw [hp])
      have hrest := ih _ _ _ _ hr
      rw [hrest, hstep]
      cases hb : r.1 <;> simp [List.count_cons] <;> omega

theorem processPoint_window_inv (cfg : ProcessorConfig) (geo : GeoKernel)
    (now : ℤ) (s : ProcessorState) (p : GPSPoint) (b : Bool) (t : ProcessorState)
    (hMW : cfg.maxDriftSequence ≤ cfg.windowSize) (hW : 1 ≤ cfg.windowSize)
    (hw : s.slidingWindow.length ≤ cfg.windowSize)
    (hb : s.consecutiveDriftPoints.length ≤ cfg.maxDriftSequence)
    (h : processPoint cfg geo now s p = some (b, t)) :
    t.slidingWindow.length ≤ cfg.windowSize ∧
    t.consecutiveDriftPoints.length ≤ cfg.maxDriftSequence := by
  have hcap := capPush_length_le cfg.maxDriftSequence s.consecutiveDriftPoints p hb
  simp only [processPoint] at h
  repeat' split at h
  · rcases Option.map_eq_some'.mp h with ⟨u, hu, heq⟩
    simp only [Prod.mk.injEq] at heq
    obtain ⟨rfl, rfl⟩ := heq
    have hf := updateBasePoint_fields _ _ _ _ _ hu
    rename_i h1 h2
    constructor
    · simp only [hf.1] at *
      omega
    · simpa [hf.2.2.1] using hb
  · simp only [Option.some.injEq, Prod.mk.injEq] at h
    obtain ⟨rfl, rfl⟩ := h
    rename_i h1 h2
    constructor
    · simp only [List.length_append, List.length_singleton] at h1 ⊢
      omega
    · simpa using hb
  · simp only [Option.some.injEq, Prod.mk.injEq] at h
    obtain ⟨rfl, rfl⟩ := h
    constructor
    · simpa using hW
    · simp
  · rcases Option.map_eq_some'.mp h with ⟨u, hu, heq⟩
    simp only [Prod.mk.injEq] at heq
    obtain ⟨rfl, rfl⟩ := heq
    have hf := updateBasePoint_fields _ _ _ _ _ hu
    simp only [foldl_recoveryStep_eq] at hf
    constructor
    · simp only [hf.1]
      exact foldl_capPush_length_le _ _ _ hw
    · simp [hf.2.2.1]
  · rcases Option.map_eq_some'.mp h with ⟨u, hu, heq⟩
    simp only [Prod.mk.injEq] at heq
    obtain ⟨rfl, rfl⟩ := heq
    have hf := updateBasePoint_fields _ _ _ _ _ hu
    constructor
    · simp only [hf.1]
      exact le_trans hcap hMW
    · simp [hf.2.2.1]
  · simp only [Option.some.injEq, Prod.mk.injEq] at h
    obtain ⟨rfl, rfl⟩ := h
    constructor
    · simpa using hw
    · simpa using hcap
  · rcases Option.map_eq_some'.mp h with ⟨u, hu, heq⟩
    simp only [Prod.mk.injEq] at heq
    obtain ⟨rfl, rfl⟩ := heq
    have hf := updateBasePoint_fields _ _ _ _ _ hu
    constructor
    · simp only [hf.1]
      exact capPush_length_le _ _ _ hw
    · simp [hf.2.2.1]
theorem markLast_length (w : List WindowPoint) (f : WindowPoint → WindowPoint) :
    (markLast w f).length = w.length := by
  unfold markLast
  cases hl : w.getLast? with
  | none => rfl
  | some x =>
      have hne : w ≠ [] := by
        intro hnil
        rw [hnil] at hl
        simp at hl
      have hpos : 0 < w.length := List.length_pos.mpr hne
      simp [List.length_dropLast]
      omega

theorem analyzerUpdateBasePoint_inv (cfg : ProcessorConfig) (geo : GeoKernel)
    (now : ℤ) (s t : AnalyzerState)
    (h : analyzerUpdateBasePoint cfg geo now s = some t)
    (hr : ∀ bp, s.basePoint = some bp → 50 ≤ bp.radius) :
    t.slidingWindow = s.slidingWindow ∧
    (∀ bp, t.basePoint = some bp → 50 ≤ bp.radius) := by
  simp only [analyzerUpdateBasePoint] at h
  split at h
  · split at h
    · split at h
      · exact absurd h (by simp)
      · obtain rfl := Option.some_injective _ h
        refine ⟨by simp, ?_⟩
        intro bp hbp
        simp only [Option.some.injEq] at hbp
        rw [← hbp]
        simpa using le_max_right _ 50
    · obtain rfl := Option.some_injective _ h
      exact ⟨rfl, hr⟩
  · split at h
    · exact absurd h (by simp)
    · obtain rfl := Option.some_injective _ h
      refine ⟨by simp, ?_⟩
      intro bp hbp
      simp only [Option.some.injEq] at hbp
      rw [← hbp]
      simpa using le_max_right _ 50

theorem rebuildBasePoint_inv (cfg : ProcessorConfig) (geo : GeoKernel)
    (now : ℤ) (s t : AnalyzerState)
    (h : rebuildBasePoint cfg geo now s = some t)
    (hr : ∀ bp, s.basePoint = some bp → 50 ≤ bp.radius) :
    t.slidingWindow = s.slidingWindow ∧
    (∀ bp, t.basePoint = some bp → 50 ≤ bp.radius) := by
  simp only [rebuildBasePoint] at h
  split at h
  · obtain rfl := Option.some_injective _ h
    refine ⟨by simp, ?_⟩
    intro bp hbp
    simp only at hbp
    exact hr bp hbp
  · split at h
    · exact absurd h (by simp)
    · obtain rfl := Option.some_injective _ h
      refine ⟨by simp, ?_⟩
      intro bp hbp
      simp only [Option.some.injEq] at hbp
      rw [← hbp]
      simpa using le_max_right _ 50

theorem recoverFold_fields (l : List GPSPoint) :
    ∀ s : AnalyzerState,
      (l.foldl (fun t q =>
        { t with validPoints := t.validPoints ++ [q],
                 filteredCount := t.filteredCount - 1,
                 driftCount := t.driftCount - 1 }) s).slidingWindow = s.slidingWindow ∧
      (l.foldl (fun t q =>
        { t with validPoints := t.validPoints ++ [q],
                 filteredCount := t.filteredCount - 1,
                 driftCount := t.driftCount - 1 }) s).basePoint = s.basePoint := by
  induction l with
  | nil => intro s; exact ⟨rfl, rfl⟩
  | cons q rest ih =>
      intro s
      simpa using ih _

theorem recoverFromLinearMotion_inv (cfg : ProcessorConfig) (geo : GeoKernel)
    (now : ℤ) (s t : AnalyzerState)
    (h : recoverFromLinearMotion cfg geo now s = some t)
    (hr : ∀ bp, s.basePoint = some bp → 50 ≤ bp.radius) :
    t.slidingWindow = s.slidingWindow ∧
    (∀ bp, t.basePoint = some bp → 50 ≤ bp.radius) := by
  simp only [recoverFromLinearMotion] at h
  have hff := recoverFold_fields
    (((jsSliceLast s.consecutiveDriftCount s.slidingWindow).filter
      (fun wp => wp.isDrift)).map (fun wp => wp.point)) s
  have hu := analyzerUpdateBasePoint_inv cfg geo now _ _ h (by
    intro bp hbp
    rw [hff.2] at hbp
    exact hr bp hbp)
  rw [hff.1] at hu
  exact hu

theorem handleConsecutiveDrift_inv (cfg : ProcessorConfig) (geo : GeoKernel)
    (now : ℤ) (s t : AnalyzerState)
    (h : handleConsecutiveDrift cfg geo now s = some t)
    (hr : ∀ bp, s.basePoint = some bp → 50 ≤ bp.radius) :
    t.slidingWindow = s.slidingWindow ∧
    (∀ bp, t.basePoint = some bp → 50 ≤ bp.radius) := by
  unfold handleConsecutiveDrift at h
  rcases Option.map_eq_some'.mp h with ⟨u, hu, heq⟩
  subst heq
  split at hu
  · have := recoverFromLinearMotion_inv cfg geo now s u hu hr
    exact ⟨by simpa using this.1, by simpa using this.2⟩
  · have := rebuildBasePoint_inv cfg geo now s u hu hr
    exact ⟨by simpa using this.1, by simpa using this.2⟩

theorem handleDriftPoint_inv (cfg : ProcessorConfig) (geo : GeoKernel)
    (now : ℤ) (s t : AnalyzerState)
    (h : handleDriftPoint cfg geo now s = some t)
    (hr : ∀ bp, s.basePoint = some bp → 50 ≤ bp.radius) :
    t.slidingWindow.length = s.slidingWindow.length ∧
    (∀ bp, t.basePoint = some bp → 50 ≤ bp.radius) := by
  simp only [handleDriftPoint] at h
  split at h
  · have := handleConsecutiveDrift_inv cfg geo now _ _ h (by simpa using hr)
    refine ⟨?_, this.2⟩
    rw [this.1]
    simpa using markLast_length _ _
  · obtain rfl := Option.some_injective _ h
    exact ⟨by simpa using markLast_length _ _, by simpa using hr⟩

theorem handleValidPoint_inv (cfg : ProcessorConfig) (geo : GeoKernel)
    (now : ℤ) (s t : AnalyzerState) (p : GPSPoint)
    (h : handleValidPoint cfg geo now s p = some t)
    (hr : ∀ bp, s.basePoint = some bp → 50 ≤ bp.radius) :
    t.slidingWindow.length = s.slidingWindow.length ∧
    (∀ bp, t.basePoint = some bp → 50 ≤ bp.radius) := by
  unfold handleValidPoint at h
  have := analyzerUpdateBasePoint_inv cfg geo now _ _ h (by simpa using hr)
  refine ⟨?_, this.2⟩
  rw [this.1]
  simpa using markLast_length _ _

theorem analyzerProcessPoint_inv (cfg : ProcessorConfig) (geo : GeoKernel)
    (now : ℤ) (s : AnalyzerState) (p : GPSPoint) (b : Bool) (t : AnalyzerState)
    (h : analyzerProcessPoint cfg geo now s p = some (b, t))
    (hw : s.slidingWindow.length ≤ cfg.windowSize)
    (hr : ∀ bp, s.basePoint = some bp → 50 ≤ bp.radius) :
    t.slidingWindow.length ≤ cfg.windowSize ∧
    (∀ bp, t.basePoint = some bp → 50 ≤ bp.radius) := by
  simp only [analyzerProcessPoint] at h
  have hcap : (addToSlidingWindow cfg
      { s with processedCount := s.processedCount + 1 } p).slidingWindow.length ≤
      cfg.windowSize := by
    unfold addToSlidingWindow
    simpa using capPush_length_le cfg.windowSize s.slidingWindow _ (by simpa using hw)
  have hrad : ∀ bp,
      (checkBasePointExpiry cfg (addToSlidingWindow cfg
        { s with processedCount := s.processedCount + 1 } p)
        p.timestamp).basePoint = some bp → 50 ≤ bp.radius := by
    unfold checkBasePointExpiry addToSlidingWindow
    intro bp hbp
    split at hbp
    · exact hr bp (by simpa using hbp)
    · split at hbp
      · simp at hbp
      · exact hr bp (by simpa using hbp)
  have hwin : (checkBasePointExpiry cfg (addToSlidingWindow cfg
      { s with processedCount := s.processedCount + 1 } p)
      p.timestamp).slidingWindow.length ≤ cfg.windowSize := by
    unfold checkBasePointExpiry
    split
    · exact hcap
    · split
      · simpa using hcap
      · exact hcap
  split at h
  · rcases Option.map_eq_some'.mp h with ⟨u, hu, heq⟩
    simp only [Prod.mk.injEq] at heq
    obtain ⟨rfl, rfl⟩ := heq
    have := handleDriftPoint_inv cfg geo now _ _ hu (by simpa using hrad)
    exact ⟨by rw [this.1]; simpa using hwin, this.2⟩
  · rcases Option.map_eq_some'.mp h with ⟨u, hu, heq⟩
    simp only [Prod.mk.injEq] at heq
    obtain ⟨rfl, rfl⟩ := heq
    have := handleValidPoint_inv cfg geo now _ _ p hu (by simpa using hrad)
    exact ⟨by rw [this.1]; simpa using hwin, this.2⟩
theorem runPoints_window_inv (cfg : ProcessorConfig) (geo : GeoKernel)
    (clock : ℕ → ℤ) (pts : List GPSPoint)
    (hMW : cfg.maxDriftSequence ≤ cfg.windowSize) (hW : 1 ≤ cfg.windowSize) :
    ∀ (i : ℕ) (s : ProcessorState) (ds : List Bool) (t : ProcessorState),
      s.slidingWindow.length ≤ cfg.windowSize →
      s.consecutiveDriftPoints.length ≤ cfg.maxDriftSequence →
      runPoints cfg geo clock i s pts = some (ds, t) →
      t.slidingWindow.length ≤ cfg.windowSize ∧
      t.consecutiveDriftPoints.length ≤ cfg.maxDriftSequence := by
  induction pts with
  | nil =>
      intro i s ds t hw hb h
      simp only [runPoints, Option.some.injEq, Prod.mk.injEq] at h
      obtain ⟨rfl, rfl⟩ := h
      exact ⟨hw, hb⟩
  | cons p rest ih =>
      intro i s ds t hw hb h
      simp only [runPoints] at h
      rcases Option.bind_eq_some.mp h with ⟨r, hp, hm⟩
      rcases Option.map_eq_some'.mp hm with ⟨x, hrun, heq⟩
      simp only [Prod.mk.injEq] at heq
      obtain ⟨rfl, rfl⟩ := heq
      have hstep := processPoint_window_inv cfg geo (clock i) s p r.1 r.2
        hMW hW hw hb (by rw [hp])
      exact ih _ _ _ _ hstep.1 hstep.2 hrun

theorem analyzerRun_inv (cfg : ProcessorConfig) (geo : GeoKernel)
    (clock : ℕ → ℤ) (pts : List GPSPoint) :
    ∀ (i : ℕ) (s : AnalyzerState) (ds : List Bool) (t : AnalyzerState),
      s.slidingWindow.length ≤ cfg.windowSize →
      (∀ bp, s.basePoint = some bp → 50 ≤ bp.radius) →
      analyzerRun cfg geo clock i s pts = some (ds, t) →
      t.slidingWindow.length ≤ cfg.windowSize ∧
      (∀ bp, t.basePoint = some bp → 50 ≤ bp.radius) := by
  induction pts with
  | nil =>
      intro i s ds t hw hr h
      simp only [analyzerRun, Option.some.injEq, Prod.mk.injEq] at h
      obtain ⟨rfl, rfl⟩ := h
      exact ⟨hw, hr⟩
  | cons p rest ih =>
      intro i s ds t hw hr h
      simp only [analyzerRun] at h
      rcases Option.bind_eq_some.mp h with ⟨r, hp, hm⟩
      rcases Option.map_eq_some'.mp hm with ⟨x, hrun, heq⟩
      simp only [Prod.mk.injEq] at heq
      obtain ⟨rfl, rfl⟩ := heq
      have hstep := analyzerProcessPoint_inv cfg geo (clock i) s p r.1 r.2
        (by rw [hp]) hw hr
      exact ih _ _ _ _ hstep.1 hstep.2 hrun

theorem analyzerRun_decisions_length (cfg : ProcessorConfig) (geo : GeoKernel)
    (clock : ℕ → ℤ) (pts : List GPSPoint) :
    ∀ (i : ℕ) (s : AnalyzerState) (ds : List Bool) (t : AnalyzerState),
      analyzerRun cfg geo clock i s pts = some (ds, t) → ds.length = pts.length := by
  induction pts with
  | nil =>
      intro i s ds t h
      simp only [analyzerRun, Option.some.injEq, Prod.mk.injEq] at h
      obtain ⟨rfl, rfl⟩ := h
      simp
  | cons p rest ih =>
      intro i s ds t h
      simp only [analyzerRun] at h
      rcases Option.bind_eq_some.mp h with ⟨r, hp, hm⟩
      rcases Option.map_eq_some'.mp hm with ⟨x, hr, heq⟩
      simp only [Prod.mk.injEq] at heq
      obtain ⟨rfl, rfl⟩ := heq
      simp [ih _ _ _ _ hr]

theorem selectDecided_append_perm (pts : List GPSPoint) :
    ∀ ds : List Bool, ds.length = pts.length →
      List.Perm (selectDecided true pts ds ++ selectDecided false pts ds) pts := by
  induction pts with
  | nil => intro ds h; simp [selectDecided]
  | cons p rest ih =>
      intro ds h
      cases ds with
      | nil => simp at h
      | cons d dsr =>
          have hlen : dsr.length = rest.length := by simpa using h
          cases d with
          | true =>
              simpa [selectDecided] using (ih dsr hlen).cons p
          | false =>
              have hmid : List.Perm
                  (selectDecided true rest dsr ++ p :: selectDecided false rest dsr)
                  (p :: (selectDecided true rest dsr ++ selectDecided false rest dsr)) :=
                List.perm_middle
              simpa [selectDecided] using hmid.trans ((ih dsr hlen).cons p)

theorem selectDecided_length_add (pts : List GPSPoint) :
    ∀ ds : List Bool, ds.length = pts.length →
      (selectDecided true pts ds).length + (selectDecided false pts ds).length =
        pts.length := by
  intro ds h
  have := (selectDecided_append_perm pts ds h).length_eq
  simpa using this

theorem selectDecided_false_length (pts : List GPSPoint) :
    ∀ ds : List Bool, ds.length = pts.length →
      (selectDecided false pts ds).length = ds.count false := by
  induction pts with
  | nil =>
      intro ds h
      have hds : ds = [] := List.length_eq_zero.mp (by simpa using h)
      subst hds
      simp [selectDecided]
  | cons p rest ih =>
      intro ds h
      cases ds with
      | nil => simp at h
      | cons d dsr =>
          have hlen : dsr.length = rest.length := by simpa using h
          cases d with
          | true => simpa [selectDecided, List.count_cons] using ih dsr hlen
          | false => simpa [selectDecided, List.count_cons] using ih dsr hlen
theorem processPoint_warmup_nofill (cfg : ProcessorConfig) (geo : GeoKernel)
    (now : ℤ) (s : ProcessorState) (p : GPSPoint)
    (h1 : s.slidingWindow.length + 1 < cfg.windowSize) :
    processPoint cfg geo now s p =
      some (true, { s with slidingWindow := s.slidingWindow ++ [p],
                           validPoints := s.validPoints ++ [p] }) := by
  simp only [processPoint]
  rw [if_pos (by omega)]
  rw [if_neg (by simp; omega)]

theorem processPoint_warmup_fill (cfg : ProcessorConfig) (geo : GeoKernel)
    (now : ℤ) (s : ProcessorState) (p : GPSPoint)
    (h0 : s.slidingWindow.length < cfg.windowSize)
    (h1 : s.slidingWindow.length + 1 = cfg.windowSize) :
    processPoint cfg geo now s p =
      (updateBasePoint cfg geo now
        { s with slidingWindow := s.slidingWindow ++ [p],
                 validPoints := s.validPoints ++ [p] }).map (fun s2 => (true, s2)) := by
  simp only [processPoint]
  rw [if_pos h0]
  rw [if_pos (by simp; omega)]

theorem runPoints_warmup_strict (cfg : ProcessorConfig) (geo : GeoKernel)
    (clock : ℕ → ℤ) (pts : List GPSPoint) :
    ∀ (i : ℕ) (s : ProcessorState),
      s.slidingWindow.length + pts.length < cfg.windowSize →
      runPoints cfg geo clock i s pts =
        some (List.replicate pts.length true,
          { s with slidingWindow := s.slidingWindow ++ pts,
                   validPoints := s.validPoints ++ pts }) := by
  induction pts with
  | nil => intro i s h; simp [runPoints]
  | cons p rest ih =>
      intro i s h
      have hstep := processPoint_warmup_nofill cfg geo (clock i) s p
        (by simp at h; omega)
      have hrec := ih (i + 1)
        { s with slidingWindow := s.slidingWindow ++ [p],
                 validPoints := s.validPoints ++ [p] }
        (by simp at h ⊢; omega)
      simp only [runPoints, hstep, Option.some_bind, hrec, Option.map_some']
      simp [List.replicate_succ]
/-- C1 (amended): in GPSProcessor (and GPSCore) the first W fixes are all
accepted with no drift check, each is appended to the window and the accepted
list, and the initial base point is built exactly when the window first
reaches W fixes. -/
theorem C1_processor_warmup (cfg : ProcessorConfig) (geo : GeoKernel)
    (clock : ℕ → ℤ) (pts : List GPSPoint)
    (hW : 1 ≤ cfg.windowSize) (hlen : pts.length ≤ cfg.windowSize) :
    ∃ t, runPoints cfg geo clock 0 initialState pts =
        some (List.replicate pts.length true, t) ∧
      t.slidingWindow = pts ∧ t.validPoints = pts ∧
      (t.basePoint.isSome ↔ pts.length = cfg.windowSize) := by
  rcases lt_or_eq_of_le hlen with hlt | heq
  · refine ⟨_, runPoints_warmup_strict cfg geo clock pts 0 initialState
      (by simp [initialState]; omega), by simp [initialState],
      by simp [initialState], ?_⟩
    simp only [initialState, Option.isSome_none]
    constructor
    · intro hfalse; exact absurd hfalse (by simp)
    · intro hwlen; omega
  · rcases List.eq_nil_or_concat pts with rfl | ⟨l1, a, rfl⟩
    · simp at heq; omega
    · simp only [List.concat_eq_append] at heq ⊢
      have hl1 : l1.length + 1 = cfg.windowSize := by simpa using heq
      have hrun1 : runPoints cfg geo clock 0 initialState l1 =
          some (List.replicate l1.length true,
            { slidingWindow := l1, validPoints := l1, lastBasePointTime := 0,
              basePoint := none, basePointRadius := 0,
              consecutiveDriftPoints := [], discardedDriftPointsCount := 0,
              basePointRebuildsCount := 0, basePointRebuildPositions := [] }) := by
        have hgen := runPoints_warmup_strict cfg geo clock l1 0 initialState
          (by simp [initialState]; omega)
        simpa [initialState] using hgen
      obtain ⟨m, hm, hupd0⟩ := updateBasePoint_of_le cfg geo (clock l1.length)
        { slidingWindow := l1 ++ [a], validPoints := l1 ++ [a],
          lastBasePointTime := 0, basePoint := none, basePointRadius := 0,
          consecutiveDriftPoints := [], discardedDriftPointsCount := 0,
          basePointRebuildsCount := 0, basePointRebuildPositions := [] }
        (by simp; omega) (by simp)
      have hupd : updateBasePoint cfg geo (clock l1.length)
          { slidingWindow := l1 ++ [a], validPoints := l1 ++ [a],
            lastBasePointTime := 0, basePoint := none, basePointRadius := 0,
            consecutiveDriftPoints := [], discardedDriftPointsCount := 0,
            basePointRebuildsCount := 0, basePointRebuildPositions := [] } =
          some { slidingWindow := l1 ++ [a], validPoints := l1 ++ [a],
                 lastBasePointTime := clock l1.length, basePoint := some m,
                 basePointRadius := calculateBasePointRadius cfg geo
                   (l1 ++ [a]) (some m),
                 consecutiveDriftPoints := [], discardedDriftPointsCount := 0,
                 basePointRebuildsCount := 0, basePointRebuildPositions := [] } := by
        simpa using hupd0
      have hfill : processPoint cfg geo (clock l1.length)
          { slidingWindow := l1, validPoints := l1, lastBasePointTime := 0,
            basePoint := none, basePointRadius := 0,
            consecutiveDriftPoints := [], discardedDriftPointsCount := 0,
            basePointRebuildsCount := 0, basePointRebuildPositions := [] } a =
          (updateBasePoint cfg geo (clock l1.length)
            { slidingWindow := l1 ++ [a], validPoints := l1 ++ [a],
              lastBasePointTime := 0, basePoint := none, basePointRadius := 0,
              consecutiveDriftPoints := [], discardedDriftPointsCount := 0,
              basePointRebuildsCount := 0,
              basePointRebuildPositions := [] }).map (fun s2 => (true, s2)) := by
        have hgen := processPoint_warmup_fill cfg geo (clock l1.length)
          { slidingWindow := l1, validPoints := l1, lastBasePointTime := 0,
            basePoint := none, basePointRadius := 0,
            consecutiveDriftPoints := [], discardedDriftPointsCount := 0,
            basePointRebuildsCount := 0, basePointRebuildPositions := [] } a
          (by simp; omega) (by simp; omega)
        simpa using hgen
      refine ⟨{ slidingWindow := l1 ++ [a], validPoints := l1 ++ [a],
                lastBasePointTime := clock l1.length, basePoint := some m,
                basePointRadius := calculateBasePointRadius cfg geo
                  (l1 ++ [a]) (some m),
                consecutiveDriftPoints := [], discardedDriftPointsCount := 0,
                basePointRebuildsCount := 0, basePointRebuildPositions := [] },
        ?_, by simp, by simp, ?_⟩
      · rw [runPoints_append, hrun1]
        simp only [Option.some_bind, Nat.zero_add]
        simp only [runPoints]
        rw [hfill, hupd]
        simp only [Option.map_some', Option.some_bind]
        rw [show List.replicate l1.length true ++ [true] =
          List.replicate (l1.length + 1) true from
          (List.replicate_succ' l1.length true).symm]
        simp
      · constructor
        · intro _
          simpa using hl1
        · intro _
          simp
theorem length_ge_one_ne_nil {α : Type} (l : List α) (h : 1 ≤ l.length) :
    l ≠ [] := by
  intro hnil
  rw [hnil] at h
  simp at h

theorem isLinearMotion_true_of (cfg : ProcessorConfig) (geo : GeoKernel)
    (radius : ℚ) (buf : List GPSPoint) (bp q1 q2 q3 : GPSPoint)
    (hbuf : 3 ≤ buf.length)
    (hq : buf.drop (buf.length - 3) = [q1, q2, q3])
    (hangle : geo.minAngle q1 q2 q3 < cfg.linearMotionAngleThreshold)
    (hnear : max (max (geo.dist q1 bp) (geo.dist q2 bp)) (geo.dist q3 bp) ≤
      radius * cfg.driftThresholdMultiplier * 5) :
    isLinearMotion cfg geo (some bp) radius buf = true := by
  unfold isLinearMotion
  rw [if_neg (by omega)]
  simp only [hq]
  rw [if_pos (by simpa using hangle)]
  simpa using hnear

/-- C3 (confirmed): when a drift candidate p brings the drift buffer to at
least 3 entries, the minimum triangle angle of the last three buffered
rejections q1, q2, q3 is below the configured threshold, and the furthest of
the three from the base point is within 5 K radius, processPoint accepts p
(returns true), appends every buffered rejection to the accepted list and
pushes it into the sliding window with oldest-first eviction at the W cap,
clears the drift buffer, rebuilds the base point (median of the new window,
stamped with the current clock) and increments the rebuild counter,
recording p as a rebuild position; no rejection is counted. -/
theorem C3_linear_motion_recovery (cfg : ProcessorConfig) (geo : GeoKernel)
    (now : ℤ) (s : ProcessorState) (p bp q1 q2 q3 : GPSPoint)
    (hW : 1 ≤ cfg.windowSize)
    (hwin : ¬ s.slidingWindow.length < cfg.windowSize)
    (hexp : ¬ cfg.validityPeriod < now - s.lastBasePointTime)
    (hbp : s.basePoint = some bp)
    (hdrift : isDriftPoint cfg geo s.basePoint s.basePointRadius p = true)
    (hbuf : 3 ≤ (capPush cfg.maxDriftSequence s.consecutiveDriftPoints p).length)
    (hq : (capPush cfg.maxDriftSequence s.consecutiveDriftPoints p).drop
        ((capPush cfg.maxDriftSequence s.consecutiveDriftPoints p).length - 3) =
        [q1, q2, q3])
    (hangle : geo.minAngle q1 q2 q3 < cfg.linearMotionAngleThreshold)
    (hnear : max (max (geo.dist q1 bp) (geo.dist q2 bp)) (geo.dist q3 bp) ≤
      s.basePointRadius * cfg.driftThresholdMultiplier * 5) :
    ∃ t, processPoint cfg geo now s p = some (true, t) ∧
      t.validPoints = s.validPoints ++
        capPush cfg.maxDriftSequence s.consecutiveDriftPoints p ∧
      t.slidingWindow =
        (capPush cfg.maxDriftSequence s.consecutiveDriftPoints p).foldl
          (capPush cfg.windowSize) s.slidingWindow ∧
      t.consecutiveDriftPoints = [] ∧
      t.basePoint = calculateMedianPoint now t.slidingWindow ∧
      t.basePoint.isSome ∧
      t.lastBasePointTime = now ∧
      t.basePointRebuildsCount = s.basePointRebuildsCount + 1 ∧
      t.basePointRebuildPositions = s.basePointRebuildPositions ++ [p] ∧
      t.discardedDriftPointsCount = s.discardedDriftPointsCount := by
  have hlm : isLinearMotion cfg geo s.basePoint s.basePointRadius
      (capPush cfg.maxDriftSequence s.consecutiveDriftPoints p) = true := by
    rw [hbp]
    exact isLinearMotion_true_of cfg geo s.basePointRadius _ bp q1 q2 q3
      hbuf hq hangle hnear
  have hlen := foldl_capPush_length_of_ge cfg.windowSize
    (capPush cfg.maxDriftSequence s.consecutiveDriftPoints p) s.slidingWindow
    (by omega)
  obtain ⟨m, hm, hupd0⟩ := updateBasePoint_of_le cfg geo now
    { s with consecutiveDriftPoints := [],
             validPoints := s.validPoints ++
               capPush cfg.maxDriftSequence s.consecutiveDriftPoints p,
             slidingWindow :=
               (capPush cfg.maxDriftSequence s.consecutiveDriftPoints p).foldl
                 (capPush cfg.windowSize) s.slidingWindow }
    (le_of_le_of_eq (by omega) hlen.symm)
    (length_ge_one_ne_nil _ (le_of_le_of_eq (by omega) hlen.symm))
  have hupd : updateBasePoint cfg geo now
      { slidingWindow :=
          (capPush cfg.maxDriftSequence s.consecutiveDriftPoints p).foldl
            (capPush cfg.windowSize) s.slidingWindow,
        validPoints := s.validPoints ++
          capPush cfg.maxDriftSequence s.consecutiveDriftPoints p,
        lastBasePointTime := s.lastBasePointTime,
        basePoint := s.basePoint,
        basePointRadius := s.basePointRadius,
        consecutiveDriftPoints := [],
        discardedDriftPointsCount := s.discardedDriftPointsCount,
        basePointRebuildsCount := s.basePointRebuildsCount,
        basePointRebuildPositions := s.basePointRebuildPositions } =
      some { slidingWindow :=
               (capPush cfg.maxDriftSequence s.consecutiveDriftPoints p).foldl
                 (capPush cfg.windowSize) s.slidingWindow,
             validPoints := s.validPoints ++
               capPush cfg.maxDriftSequence s.consecutiveDriftPoints p,
             lastBasePointTime := now,
             basePoint := some m,
             basePointRadius := calculateBasePointRadius cfg geo
               ((capPush cfg.maxDriftSequence s.consecutiveDriftPoints p).foldl
                 (capPush cfg.windowSize) s.slidingWindow) (some m),
             consecutiveDriftPoints := [],
             discardedDriftPointsCount := s.discardedDriftPointsCount,
             basePointRebuildsCount := s.basePointRebuildsCount,
             basePointRebuildPositions := s.basePointRebuildPositions } := by
    simpa using hupd0
  refine ⟨{ slidingWindow :=
              (capPush cfg.maxDriftSequence s.consecutiveDriftPoints p).foldl
                (capPush cfg.windowSize) s.slidingWindow,
            validPoints := s.validPoints ++
              capPush cfg.maxDriftSequence s.consecutiveDriftPoints p,
            lastBasePointTime := now,
            basePoint := some m,
            basePointRadius := calculateBasePointRadius cfg geo
              ((capPush cfg.maxDriftSequence s.consecutiveDriftPoints p).foldl
                (capPush cfg.windowSize) s.slidingWindow) (some m),
            consecutiveDriftPoints := [],
            discardedDriftPointsCount := s.discardedDriftPointsCount,
            basePointRebuildsCount := s.basePointRebuildsCount + 1,
            basePointRebuildPositions := s.basePointRebuildPositions ++ [p] },
    ?_, by simp, by simp, by simp, by simpa using hm.symm, by simp, by simp,
    by simp, by simp, by simp⟩
  simp only [processPoint]
  rw [if_neg hwin, if_neg hexp, if_pos hdrift, if_pos (And.intro hbuf hlm)]
  simp only [foldl_recoveryStep_eq]
  rw [hupd]
  simp
/-- C4 (amended): when a drift candidate p makes the drift buffer reach
maxDriftSequence entries and the linear-motion test does not fire, and
windowSize ≤ maxDriftSequence (as with the defaults, both 10), processPoint
replaces the sliding window with the buffer contents, clears the buffer,
rebuilds the base point from the new window (median, stamped with the
current clock), increments the rebuild counter, records p as a rebuild
position, appends p to the accepted list and accepts p; in particular a
base point is then present. -/
theorem C4_forced_rebuild (cfg : ProcessorConfig) (geo : GeoKernel)
    (now : ℤ) (s : ProcessorState) (p : GPSPoint)
    (hMW : cfg.windowSize ≤ cfg.maxDriftSequence) (hW : 1 ≤ cfg.windowSize)
    (hwin : ¬ s.slidingWindow.length < cfg.windowSize)
    (hexp : ¬ cfg.validityPeriod < now - s.lastBasePointTime)
    (hdrift : isDriftPoint cfg geo s.basePoint s.basePointRadius p = true)
    (hnl : isLinearMotion cfg geo s.basePoint s.basePointRadius
      (capPush cfg.maxDriftSequence s.consecutiveDriftPoints p) = false)
    (hfull : cfg.maxDriftSequence ≤
      (capPush cfg.maxDriftSequence s.consecutiveDriftPoints p).length) :
    ∃ t, processPoint cfg geo now s p = some (true, t) ∧
      t.slidingWindow = capPush cfg.maxDriftSequence s.consecutiveDriftPoints p ∧
      t.consecutiveDriftPoints = [] ∧
      t.basePoint = calculateMedianPoint now
        (capPush cfg.maxDriftSequence s.consecutiveDriftPoints p) ∧
      t.basePoint.isSome ∧
      t.lastBasePointTime = now ∧
      t.basePointRebuildsCount = s.basePointRebuildsCount + 1 ∧
      t.basePointRebuildPositions = s.basePointRebuildPositions ++ [p] ∧
      t.validPoints = s.validPoints ++ [p] := by
  obtain ⟨m, hm, hupd0⟩ := updateBasePoint_of_le cfg geo now
    { s with slidingWindow := capPush cfg.maxDriftSequence s.consecutiveDriftPoints p,
             consecutiveDriftPoints := [] }
    (by simpa using le_trans hMW hfull)
    (length_ge_one_ne_nil _ (by simpa using le_trans (le_trans hW hMW) hfull))
  have hupd : updateBasePoint cfg geo now
      { slidingWindow := capPush cfg.maxDriftSequence s.consecutiveDriftPoints p,
        validPoints := s.validPoints,
        lastBasePointTime := s.lastBasePointTime,
        basePoint := s.basePoint,
        basePointRadius := s.basePointRadius,
        consecutiveDriftPoints := [],
        discardedDriftPointsCount := s.discardedDriftPointsCount,
        basePointRebuildsCount := s.basePointRebuildsCount,
        basePointRebuildPositions := s.basePointRebuildPositions } =
      some { slidingWindow := capPush cfg.maxDriftSequence s.consecutiveDriftPoints p,
             validPoints := s.validPoints,
             lastBasePointTime := now,
             basePoint := some m,
             basePointRadius := calculateBasePointRadius cfg geo
               (capPush cfg.maxDriftSequence s.consecutiveDriftPoints p) (some m),
             consecutiveDriftPoints := [],
             discardedDriftPointsCount := s.discardedDriftPointsCount,
             basePointRebuildsCount := s.basePointRebuildsCount,
             basePointRebuildPositions := s.basePointRebuildPositions } := by
    simpa using hupd0
  refine ⟨{ slidingWindow := capPush cfg.maxDriftSequence s.consecutiveDriftPoints p,
            validPoints := s.validPoints ++ [p],
            lastBasePointTime := now,
            basePoint := some m,
            basePointRadius := calculateBasePointRadius cfg geo
              (capPush cfg.maxDriftSequence s.consecutiveDriftPoints p) (some m),
            consecutiveDriftPoints := [],
            discardedDriftPointsCount := s.discardedDriftPointsCount,
            basePointRebuildsCount := s.basePointRebuildsCount + 1,
            basePointRebuildPositions := s.basePointRebuildPositions ++ [p] },
    ?_, by simp, by simp, by simpa using hm.symm, by simp, by simp, by simp,
    by simp, by simp⟩
  simp only [processPoint]
  rw [if_neg hwin, if_neg hexp, if_pos hdrift,
    if_neg (by simp [hnl]), if_pos hfull]
  rw [hupd]
  simp
/-- C5 (amended): after any run of processPoint calls from a fresh state the
GPSProcessor sliding window holds at most windowSize fixes provided
maxDriftSequence ≤ windowSize and 1 ≤ windowSize (both hold for the
defaults, 10 and 10); the GpsTrajectoryAnalyzer window respects the bound
for every configuration.  Quantifying over every input list covers the state
after each individual call. -/
theorem C5_window_bound (cfg acfg : ProcessorConfig) (geoP geoA : GeoKernel)
    (clockP clockA : ℕ → ℤ) (pts ptsA : List GPSPoint)
    (hMW : cfg.maxDriftSequence ≤ cfg.windowSize) (hW : 1 ≤ cfg.windowSize) :
    (∀ ds t, runPoints cfg geoP clockP 0 initialState pts = some (ds, t) →
      t.slidingWindow.length ≤ cfg.windowSize) ∧
    (∀ ds t, analyzerRun acfg geoA clockA 0 analyzerInitialState ptsA =
        some (ds, t) →
      t.slidingWindow.length ≤ acfg.windowSize) := by
  constructor
  · intro ds t h
    exact (runPoints_window_inv cfg geoP clockP pts hMW hW 0 initialState ds t
      (by simp [initialState]) (by simp [initialState]) h).1
  · intro ds t h
    exact (analyzerRun_inv acfg geoA clockA ptsA 0 analyzerInitialState ds t
      (by simp [analyzerInitialState]) (by simp [analyzerInitialState]) h).1

/-- C10 (confirmed): every base point the analyzer ever holds after a run
from a fresh state has radius at least 50 meters (the computed radius is
clamped from below by 50 on the initial-creation, refresh and rebuild paths
alike), so whenever the drift multiplier K is nonnegative the drift
threshold K radius is at least 50 K. -/
theorem C10_radius_floor (cfg : ProcessorConfig) (geo : GeoKernel)
    (clock : ℕ → ℤ) (pts : List GPSPoint) (ds : List Bool) (t : AnalyzerState)
    (h : analyzerRun cfg geo clock 0 analyzerInitialState pts = some (ds, t)) :
    ∀ bp, t.basePoint = some bp → 50 ≤ bp.radius ∧
      (0 ≤ cfg.driftThresholdMultiplier →
        50 * cfg.driftThresholdMultiplier ≤
          bp.radius * cfg.driftThresholdMultiplier) := by
  intro bp hbp
  have h50 := (analyzerRun_inv cfg geo clock pts 0 analyzerInitialState ds t
    (by simp [analyzerInitialState]) (by simp [analyzerInitialState]) h).2 bp hbp
  exact ⟨h50, fun hK => mul_le_mul_of_nonneg_right h50 hK⟩

/-- C9 (confirmed): GPSProcessor.processTrajectory (and the line-for-line
identical GPSCore.processTrajectory) returns the same accepted list as both
processedPoints and filteredPoints; rejected fixes appear in neither output
field and are counted only by the discarded-drift counter reported through
getStatus. -/
theorem C9_processor_outputs (cfg : ProcessorConfig) (geo : GeoKernel)
    (clock : ℕ → ℤ) (pts : List GPSPoint) (r : ProcessedResult)
    (t : ProcessorState)
    (h : processTrajectory cfg geo clock pts = some (r, t)) :
    r.processedPoints = r.filteredPoints ∧
    ∃ ds, runPoints cfg geo clock 0 initialState pts = some (ds, t) ∧
      ds.length = pts.length ∧
      r.originalPoints = pts ∧
      r.processedPoints = selectDecided true pts ds ∧
      t.discardedDriftPointsCount = (selectDecided false pts ds).length := by
  unfold processTrajectory at h
  rcases Option.map_eq_some'.mp h with ⟨x, hx, heq⟩
  simp only [Prod.mk.injEq] at heq
  obtain ⟨rfl, rfl⟩ := heq
  have hlen := runPoints_decisions_length cfg geo clock pts 0 initialState
    x.1 x.2 (by rw [hx])
  have hdisc := runPoints_discarded cfg geo clock pts 0 initialState
    x.1 x.2 (by rw [hx])
  refine ⟨rfl, x.1, by rw [hx], hlen, rfl, rfl, ?_⟩
  rw [selectDecided_false_length pts x.1 hlen, hdisc]
  simp [initialState]

/-- C2 (amended): GpsTrajectoryAnalyzer.processTrajectory partitions its
input occurrence by occurrence: there is one per-fix decision list such that
processedPoints collects exactly the accepted occurrences and filteredPoints
exactly the rejected ones, their concatenation is a permutation of the input
and their lengths add up to the input length. -/
theorem C2_analyzer_partition (cfg : ProcessorConfig) (geo : GeoKernel)
    (clock : ℕ → ℤ) (pts : List GPSPoint) (r : ProcessedResult)
    (t : AnalyzerState)
    (h : analyzerProcessTrajectory cfg geo clock pts = some (r, t)) :
    ∃ ds : List Bool, ds.length = pts.length ∧
      r.originalPoints = pts ∧
      r.processedPoints = selectDecided true pts ds ∧
      r.filteredPoints = selectDecided false pts ds ∧
      List.Perm (r.processedPoints ++ r.filteredPoints) pts ∧
      r.processedPoints.length + r.filteredPoints.length = pts.length := by
  unfold analyzerProcessTrajectory at h
  rcases Option.map_eq_some'.mp h with ⟨x, hx, heq⟩
  simp only [Prod.mk.injEq] at heq
  obtain ⟨rfl, rfl⟩ := heq
  have hlen := analyzerRun_decisions_length cfg geo clock pts 0
    analyzerInitialState x.1 x.2 hx
  exact ⟨x.1, hlen, rfl, rfl, rfl,
    by simpa using selectDecided_append_perm pts x.1 hlen,
    by simpa using selectDecided_length_add pts x.1 hlen⟩
theorem dedupFold_mem (l : List GPSPoint) : ∀ (acc : List GPSPoint) (p : GPSPoint),
    p ∈ l.foldl (fun acc q => if q ∈ acc then acc else acc ++ [q]) acc ↔
      p ∈ acc ∨ p ∈ l := by
  induction l with
  | nil => intro acc p; simp
  | cons q rest ih =>
      intro acc p
      simp only [List.foldl_cons]
      by_cases hq : q ∈ acc
      · rw [if_pos hq, ih]
        constructor
        · rintro (h | h)
          · exact Or.inl h
          · exact Or.inr (List.mem_cons_of_mem _ h)
        · rintro (h | h)
          · exact Or.inl h
          · rcases List.mem_cons.mp h with rfl | h
            · exact Or.inl hq
            · exact Or.inr h
      · rw [if_neg hq, ih]
        simp only [List.mem_append, List.mem_singleton, List.mem_cons]
        tauto

theorem dedupFold_nodup (l : List GPSPoint) : ∀ acc : List GPSPoint, acc.Nodup →
    (l.foldl (fun acc q => if q ∈ acc then acc else acc ++ [q]) acc).Nodup := by
  induction l with
  | nil => intro acc h; simpa using h
  | cons q rest ih =>
      intro acc h
      simp only [List.foldl_cons]
      by_cases hq : q ∈ acc
      · rw [if_pos hq]; exact ih acc h
      · rw [if_neg hq]
        refine ih _ ?_
        simp [List.nodup_append, h, hq]

theorem dedupByKey_mem (l : List GPSPoint) (p : GPSPoint) :
    p ∈ dedupByKey l ↔ p ∈ l := by
  unfold dedupByKey
  rw [dedupFold_mem]
  simp

theorem dedupByKey_nodup (l : List GPSPoint) : (dedupByKey l).Nodup :=
  dedupFold_nodup l [] (by simp)

/-- C7 (confirmed): with all four anomaly counts zero the simulator adds no
synthetic point and removes none of the baseline: the first variant returns
exactly the baseline sorted by timestamp (a permutation of B), and the second
variant returns the sorted baseline deduplicated by the point key, so
membership in the output coincides with membership in B and the output has no
duplicates. -/
theorem C7_simulator_roundtrip
    (applyEffect1 : List GPSPoint → DriftConfig → List GPSPoint)
    (applyEffect2 : List (GPSPoint × Bool) → DriftConfig → List (GPSPoint × Bool))
    (mkS mkM mkT mkSp : ℕ → DriftConfig) (opts : SimulationOptions)
    (B : List GPSPoint) (hB : B ≠ [])
    (h0 : opts.staticDriftCount = 0) (h1 : opts.movingDriftCount = 0)
    (h2 : opts.tunnelCount = 0) (h3 : opts.speedScenarioCount = 0) :
    generateSimulatedData1 applyEffect1 mkS mkM mkT mkSp opts B =
      sortByTimestamp B ∧
    List.Perm (generateSimulatedData1 applyEffect1 mkS mkM mkT mkSp opts B) B ∧
    generateSimulatedData2 applyEffect2 mkS mkM mkT mkSp opts B =
      dedupByKey (sortByTimestamp B) ∧
    (∀ p, p ∈ generateSimulatedData2 applyEffect2 mkS mkM mkT mkSp opts B ↔
      p ∈ B) ∧
    (generateSimulatedData2 applyEffect2 mkS mkM mkT mkSp opts B).Nodup := by
  have hlen : ¬ B.length = 0 := by simpa [List.length_eq_zero] using hB
  have hcfg : ∀ n, generateDriftConfigs mkS mkM mkT mkSp n opts = [] := by
    intro n
    simp [generateDriftConfigs, h0, h1, h2, h3, adjustOverlaps]
  have hg1 : generateSimulatedData1 applyEffect1 mkS mkM mkT mkSp opts B =
      sortByTimestamp B := by
    simp [generateSimulatedData1, hlen, hcfg]
  have hfilter : ((B.map (fun p => (p, false))).filter (fun t => !t.2)) =
      B.map (fun p => (p, false)) := by
    refine List.filter_eq_self.mpr ?_
    intro a ha
    rcases List.mem_map.mp ha with ⟨b, _, rfl⟩
    rfl
  have hg2 : generateSimulatedData2 applyEffect2 mkS mkM mkT mkSp opts B =
      dedupByKey (sortByTimestamp B) := by
    simp only [generateSimulatedData2, hlen, if_neg hlen, hcfg, List.foldl_nil,
      hfilter, List.map_map]
    simp [Function.comp_def]
  refine ⟨hg1, ?_, hg2, ?_, ?_⟩
  · rw [hg1]
    exact List.perm_insertionSort _ B
  · intro p
    rw [hg2, dedupByKey_mem]
    exact (List.perm_insertionSort _ B).mem_iff
  · rw [hg2]
    exact dedupByKey_nodup _

/-- C6 (corrected): when no side of the triangle is zero all three
implementations agree on the smallest law-of-cosines angle, but on a zero
side only GpsTrajectoryAnalyzer.calculateMinAngleInTriangle returns 0; the
GPSProcessor and GPSCore versions lack the zero guard, divide by zero, and
return NaN (modelled none), not 0. -/
theorem C6_min_angle (dist : GPSPoint → GPSPoint → ℚ) (acosDeg : ℚ → ℚ)
    (p1 p2 p3 : GPSPoint) :
    ((dist p2 p3 = 0 ∨ dist p1 p3 = 0 ∨ dist p1 p2 = 0) →
      calculateMinAngleAnalyzer dist acosDeg p1 p2 p3 = 0 ∧
      calculateMinAngleProcessor dist acosDeg p1 p2 p3 = none) ∧
    (dist p2 p3 ≠ 0 → dist p1 p3 ≠ 0 → dist p1 p2 ≠ 0 →
      calculateMinAngleProcessor dist acosDeg p1 p2 p3 =
        some (calculateMinAngleAnalyzer dist acosDeg p1 p2 p3) ∧
      calculateMinAngleAnalyzer dist acosDeg p1 p2 p3 ∈
        [acosDeg ((dist p1 p3 * dist p1 p3 + dist p1 p2 * dist p1 p2 -
            dist p2 p3 * dist p2 p3) / (2 * dist p1 p3 * dist p1 p2)),
         acosDeg ((dist p2 p3 * dist p2 p3 + dist p1 p2 * dist p1 p2 -
            dist p1 p3 * dist p1 p3) / (2 * dist p2 p3 * dist p1 p2)),
         acosDeg ((dist p2 p3 * dist p2 p3 + dist p1 p3 * dist p1 p3 -
            dist p1 p2 * dist p1 p2) / (2 * dist p2 p3 * dist p1 p3))] ∧
      (∀ x ∈ [acosDeg ((dist p1 p3 * dist p1 p3 + dist p1 p2 * dist p1 p2 -
            dist p2 p3 * dist p2 p3) / (2 * dist p1 p3 * dist p1 p2)),
         acosDeg ((dist p2 p3 * dist p2 p3 + dist p1 p2 * dist p1 p2 -
            dist p1 p3 * dist p1 p3) / (2 * dist p2 p3 * dist p1 p2)),
         acosDeg ((dist p2 p3 * dist p2 p3 + dist p1 p3 * dist p1 p3 -
            dist p1 p2 * dist p1 p2) / (2 * dist p2 p3 * dist p1 p3))],
        calculateMinAngleAnalyzer dist acosDeg p1 p2 p3 ≤ x)) := by
  constructor
  · intro h
    constructor
    · simp only [calculateMinAngleAnalyzer]
      rw [if_pos h]
    · simp only [calculateMinAngleProcessor]
      rcases h with h | h | h
      · rw [if_pos (by rw [h]; norm_num)]
      · rw [if_pos (by rw [h]; norm_num)]
      · rw [if_pos (by rw [h]; norm_num)]
  · intro ha hb hc
    have hA : ¬ (2 * dist p1 p3 * dist p1 p2 = 0 ∨
        2 * dist p2 p3 * dist p1 p2 = 0 ∨ 2 * dist p2 p3 * dist p1 p3 = 0) := by
      push_neg
      refine ⟨?_, ?_, ?_⟩
      · exact mul_ne_zero (mul_ne_zero two_ne_zero hb) hc
      · exact mul_ne_zero (mul_ne_zero two_ne_zero ha) hc
      · exact mul_ne_zero (mul_ne_zero two_ne_zero ha) hb
    have hZ : ¬ (dist p2 p3 = 0 ∨ dist p1 p3 = 0 ∨ dist p1 p2 = 0) := by
      push_neg
      exact ⟨ha, hb, hc⟩
    refine ⟨?_, ?_, ?_⟩
    · simp only [calculateMinAngleProcessor, calculateMinAngleAnalyzer]
      rw [if_neg hA, if_neg hZ]
    · simp only [calculateMinAngleAnalyzer]
      rw [if_neg hZ]
      rcases min_choice (min (acosDeg ((dist p1 p3 * dist p1 p3 +
          dist p1 p2 * dist p1 p2 - dist p2 p3 * dist p2 p3) /
            (2 * dist p1 p3 * dist p1 p2)))
          (acosDeg ((dist p2 p3 * dist p2 p3 + dist p1 p2 * dist p1 p2 -
            dist p1 p3 * dist p1 p3) / (2 * dist p2 p3 * dist p1 p2))))
          (acosDeg ((dist p2 p3 * dist p2 p3 + dist p1 p3 * dist p1 p3 -
            dist p1 p2 * dist p1 p2) / (2 * dist p2 p3 * dist p1 p3)))
        with h2 | h2
      · rw [h2]
        rcases min_choice (acosDeg ((dist p1 p3 * dist p1 p3 +
            dist p1 p2 * dist p1 p2 - dist p2 p3 * dist p2 p3) /
              (2 * dist p1 p3 * dist p1 p2)))
            (acosDeg ((dist p2 p3 * dist p2 p3 + dist p1 p2 * dist p1 p2 -
              dist p1 p3 * dist p1 p3) / (2 * dist p2 p3 * dist p1 p2)))
          with h3 | h3
        · rw [h3]; simp
        · rw [h3]; simp
      · rw [h2]; simp
    · intro x hx
      simp only [calculateMinAngleAnalyzer]
      rw [if_neg hZ]
      simp only [List.mem_cons, List.not_mem_nil, or_false] at hx
      rcases hx with rfl | rfl | rfl
      · exact le_trans (min_le_left _ _) (min_le_left _ _)
      · exact le_trans (min_le_left _ _) (min_le_right _ _)
      · exact min_le_right _ _

/-- C8 (corrected): the numeric branch of parseTimestamp multiplies by 1000
exactly on the OPEN interval 946684800 < n < 946684800000 (the claim states a
closed lower bound); values strictly above 946684800000 pass through as
milliseconds, while n = 946684800 and n = 946684800000 themselves fall
through to the civil-datetime parser. -/
theorem C8_timestamp_boundaries (n : ℚ) :
    (parseTimestampNumeric n = some (n * 1000) ↔
      946684800 < n ∧ n < 946684800000) ∧
    (946684800000 < n → parseTimestampNumeric n = some n) ∧
    ((n ≤ 946684800 ∨ n = 946684800000) → parseTimestampNumeric n = none) := by
  refine ⟨⟨?_, ?_⟩, ?_, ?_⟩
  · intro h
    simp only [parseTimestampNumeric] at h
    split_ifs at h with h1 h2
    · norm_num at h1
      exact h1
    · have heq : n = n * 1000 := Option.some.inj h
      norm_num at h2
      linarith
  · rintro ⟨hl, hr⟩
    simp only [parseTimestampNumeric]
    rw [if_pos ⟨hl, by norm_num; linarith⟩]
  · intro h
    simp only [parseTimestampNumeric]
    rw [if_neg (by rintro ⟨h1, h2⟩; norm_num at h2; linarith),
      if_pos (by norm_num; linarith)]
  · rintro (h | h)
    · simp only [parseTimestampNumeric]
      rw [if_neg (by rintro ⟨h1, _⟩; linarith),
        if_neg (by norm_num; linarith)]
    · rw [h]
      norm_num [parseTimestampNumeric]
theorem C1_processor_warmup_witness :
    ∃ t, runPoints defaultConfig flatKernel clock0 0 initialState [fix00] =
        some (List.replicate [fix00].length true, t) ∧
      t.slidingWindow = [fix00] ∧ t.validPoints = [fix00] ∧
      (t.basePoint.isSome ↔ [fix00].length = defaultConfig.windowSize) :=
  C1_processor_warmup defaultConfig flatKernel clock0 [fix00]
    (by decide) (by decide)

theorem C5_window_bound_witness :
    sOne.slidingWindow.length ≤ defaultConfig.windowSize :=
  (C5_window_bound defaultConfig defaultConfig flatKernel flatKernel clock0
    clock0 [fix00] [fix00] (by decide) (by decide)).1 [true] sOne (by rfl)

theorem C2_analyzer_partition_witness :
    ∃ ds : List Bool, ds.length = [fix00].length ∧
      rA1.originalPoints = [fix00] ∧
      rA1.processedPoints = selectDecided true [fix00] ds ∧
      rA1.filteredPoints = selectDecided false [fix00] ds ∧
      List.Perm (rA1.processedPoints ++ rA1.filteredPoints) [fix00] ∧
      rA1.processedPoints.length + rA1.filteredPoints.length = [fix00].length :=
  C2_analyzer_partition defaultConfig flatKernel clock0 [fix00] rA1 tA1 (by rfl)

theorem C9_processor_outputs_witness :
    rP1.processedPoints = rP1.filteredPoints ∧
    ∃ ds, runPoints defaultConfig flatKernel clock0 0 initialState [fix00] =
        some (ds, sOne) ∧
      ds.length = [fix00].length ∧
      rP1.originalPoints = [fix00] ∧
      rP1.processedPoints = selectDecided true [fix00] ds ∧
      sOne.discardedDriftPointsCount = (selectDecided false [fix00] ds).length :=
  C9_processor_outputs defaultConfig flatKernel clock0 [fix00] rP1 sOne (by rfl)

theorem C7_simulator_roundtrip_witness :
    generateSimulatedData1 idEffect1 noCfg noCfg noCfg noCfg zeroOpts dupFixes =
      sortByTimestamp dupFixes ∧
    List.Perm (generateSimulatedData1 idEffect1 noCfg noCfg noCfg noCfg zeroOpts
      dupFixes) dupFixes ∧
    generateSimulatedData2 idEffect2 noCfg noCfg noCfg noCfg zeroOpts dupFixes =
      dedupByKey (sortByTimestamp dupFixes) ∧
    (∀ p, p ∈ generateSimulatedData2 idEffect2 noCfg noCfg noCfg noCfg zeroOpts
      dupFixes ↔ p ∈ dupFixes) ∧
    (generateSimulatedData2 idEffect2 noCfg noCfg noCfg noCfg zeroOpts
      dupFixes).Nodup :=
  C7_simulator_roundtrip idEffect1 idEffect2 noCfg noCfg noCfg noCfg zeroOpts
    dupFixes (by decide) rfl rfl rfl rfl

theorem C8_timestamp_boundaries_witness :
    parseTimestampNumeric 946684801 = some (946684801 * 1000) ∧
    parseTimestampNumeric 946684800001 = some 946684800001 ∧
    parseTimestampNumeric 100 = none :=
  ⟨(C8_timestamp_boundaries 946684801).1.mpr (by norm_num),
   (C8_timestamp_boundaries 946684800001).2.1 (by norm_num),
   (C8_timestamp_boundaries 100).2.2 (Or.inl (by norm_num))⟩

theorem C8_counterexample :
    parseTimestampNumeric 946684800 = none ∧
    parseTimestampNumeric 946684800000 = none := by
  norm_num [parseTimestampNumeric]

theorem C6_min_angle_witness :
    calculateMinAngleAnalyzer taxicabDist (fun x => x) fix00 fix01 fix21 = 0 ∧
    calculateMinAngleProcessor taxicabDist (fun x => x) fix00 fix01 fix21 =
      none :=
  (C6_min_angle taxicabDist (fun x => x) fix00 fix01 fix21).1
    (Or.inr (Or.inr (by norm_num [taxicabDist, fix00, fix01])))

theorem C6_counterexample :
    calculateMinAngleProcessor taxicabDist (fun x => x) fix00 fix00 fix21 =
      none ∧
    calculateMinAngleAnalyzer taxicabDist (fun x => x) fix00 fix00 fix21 = 0 := by
  constructor
  · norm_num [calculateMinAngleProcessor, taxicabDist, fix00, fix21]
  · norm_num [calculateMinAngleAnalyzer, taxicabDist, fix00, fix21]
theorem C3_linear_motion_recovery_witness :
    ∃ t, processPoint cfgW3 flatKernel 0 sC3 pD5 = some (true, t) ∧
      t.validPoints = sC3.validPoints ++
        capPush cfgW3.maxDriftSequence sC3.consecutiveDriftPoints pD5 ∧
      t.slidingWindow =
        (capPush cfgW3.maxDriftSequence sC3.consecutiveDriftPoints pD5).foldl
          (capPush cfgW3.windowSize) sC3.slidingWindow ∧
      t.consecutiveDriftPoints = [] ∧
      t.basePoint = calculateMedianPoint 0 t.slidingWindow ∧
      t.basePoint.isSome ∧
      t.lastBasePointTime = 0 ∧
      t.basePointRebuildsCount = sC3.basePointRebuildsCount + 1 ∧
      t.basePointRebuildPositions = sC3.basePointRebuildPositions ++ [pD5] ∧
      t.discardedDriftPointsCount = sC3.discardedDriftPointsCount :=
  C3_linear_motion_recovery cfgW3 flatKernel 0 sC3 pD5 fix00 pD3 pD4 pD5
    (by decide) (by decide) (by decide) (by rfl)
    (by norm_num [isDriftPoint, sC3, flatKernel, taxicabDist, cfgW3,
      defaultConfig, pD5, fix00])
    (by decide) (by decide)
    (by norm_num [flatKernel, cfgW3, defaultConfig])
    (by norm_num [flatKernel, taxicabDist, sC3, cfgW3, defaultConfig, pD3, pD4,
      pD5, fix00])

theorem C4_forced_rebuild_witness :
    ∃ t, processPoint cfgW2M2 bendKernel 0 sC4w pT31 = some (true, t) ∧
      t.slidingWindow = capPush cfgW2M2.maxDriftSequence
        sC4w.consecutiveDriftPoints pT31 ∧
      t.consecutiveDriftPoints = [] ∧
      t.basePoint = calculateMedianPoint 0
        (capPush cfgW2M2.maxDriftSequence sC4w.consecutiveDriftPoints pT31) ∧
      t.basePoint.isSome ∧
      t.lastBasePointTime = 0 ∧
      t.basePointRebuildsCount = sC4w.basePointRebuildsCount + 1 ∧
      t.basePointRebuildPositions = sC4w.basePointRebuildPositions ++ [pT31] ∧
      t.validPoints = sC4w.validPoints ++ [pT31] :=
  C4_forced_rebuild cfgW2M2 bendKernel 0 sC4w pT31
    (by decide) (by decide) (by decide) (by decide)
    (by norm_num [isDriftPoint, sC4w, bendKernel, taxicabDist, cfgW2M2,
      defaultConfig, pT31, fix00])
    (by decide) (by decide)

theorem C4_counterexample :
    (processPoint cfgW5M3 bendKernel 5 sC4 pT32).map (fun r =>
      (r.1, r.2.basePoint, r.2.lastBasePointTime, r.2.basePointRebuildsCount)) =
      some (true, some fix00, 0, 1) ∧ (5 : ℤ) ≠ 0 := by
  refine ⟨?_, by decide⟩
  norm_num [processPoint, isDriftPoint, isLinearMotion, capPush,
    updateBasePoint, cfgW5M3, defaultConfig, bendKernel, taxicabDist, sC4,
    fix00, fix01, fix02, fix03, fix04, pT30, pT31, pT32]

theorem stepA1 : analyzerProcessPoint defaultConfig flatKernel 0
    analyzerInitialState fix00 = some (true, tA1) := by
  norm_num [analyzerProcessPoint, addToSlidingWindow, checkBasePointExpiry,
    isDriftPointA, handleValidPoint, markLast, analyzerUpdateBasePoint,
    capPush, defaultConfig, analyzerInitialState, flatKernel, fix00, wp00v,
    tA1]

theorem stepA2 : analyzerProcessPoint defaultConfig flatKernel 0 tA1 fix01 =
    some (true, tA2) := by
  norm_num [analyzerProcessPoint, addToSlidingWindow, checkBasePointExpiry,
    isDriftPointA, handleValidPoint, markLast, analyzerUpdateBasePoint,
    capPush, defaultConfig, flatKernel, fix00, fix01, wp00v, wp01v, tA1, tA2]

theorem stepA3 : analyzerProcessPoint defaultConfig flatKernel 0 tA2 fix02 =
    some (true, tA3) := by
  norm_num [analyzerProcessPoint, addToSlidingWindow, checkBasePointExpiry,
    isDriftPointA, handleValidPoint, markLast, analyzerUpdateBasePoint,
    calculateCentroid, calculateRadius, capPush, jsSliceLast, defaultConfig,
    flatKernel, taxicabDist, fix00, fix01, fix02, wp00v, wp01v, wp02v, bpA50,
    tA2, tA3, List.insertionSort, List.orderedInsert]

theorem stepA4 : analyzerProcessPoint defaultConfig flatKernel 0 tA3 fixFar =
    some (false, tA4) := by
  norm_num [analyzerProcessPoint, addToSlidingWindow, checkBasePointExpiry,
    isDriftPointA, handleDriftPoint, markLast, capPush, defaultConfig,
    flatKernel, taxicabDist, fix00, fix01, fix02, fixFar, wp00v, wp01v, wp02v,
    wpFarD, bpA50, tA3, tA4]

set_option maxHeartbeats 800000 in
theorem C10_radius_floor_witness :
    50 ≤ bpA50.radius ∧
    (0 ≤ defaultConfig.driftThresholdMultiplier →
      50 * defaultConfig.driftThresholdMultiplier ≤
        bpA50.radius * defaultConfig.driftThresholdMultiplier) :=
  C10_radius_floor defaultConfig flatKernel clock0 [fix00, fix01, fix02]
    [true, true, true] tA3
    (by simp only [analyzerRun, clock0, stepA1, stepA2, stepA3,
      Option.some_bind, Option.map_some'])
    bpA50 rfl

set_option maxHeartbeats 800000 in
theorem C1_counterexample :
    (analyzerRun defaultConfig flatKernel clock0 0 analyzerInitialState
        [fix00, fix01, fix02, fixFar]).map (fun x => x.1) =
      some [true, true, true, false] ∧
    [fix00, fix01, fix02, fixFar].length ≤ defaultConfig.windowSize := by
  refine ⟨?_, by decide⟩
  simp only [analyzerRun, clock0, stepA1, stepA2, stepA3, stepA4,
    Option.some_bind, Option.map_some', Option.map_some]

theorem stepP1 : processPoint cfgW2 bendKernel 0 initialState fix00 =
    some (true, sOne) := by
  norm_num [processPoint, updateBasePoint, capPush, initialState, cfgW2,
    defaultConfig, bendKernel, fix00, sOne]

theorem stepP2 : processPoint cfgW2 bendKernel 0 sOne fix21 =
    some (true, sP2) := by
  norm_num [processPoint, updateBasePoint, calculateMedianPoint,
    calculateBasePointRadius, capPush, cfgW2, defaultConfig, bendKernel,
    taxicabDist, fix00, fix21, bpMed, sOne, sP2, dummyPoint,
    List.insertionSort, List.orderedInsert]

theorem stepP3 : processPoint cfgW2 bendKernel 0 sP2 fix102 =
    some (false, sP3) := by
  norm_num [processPoint, isDriftPoint, isLinearMotion, capPush, cfgW2,
    defaultConfig, bendKernel, taxicabDist, fix00, fix21, fix102, bpMed, sP2,
    sP3]

set_option maxHeartbeats 800000 in
theorem C2_counterexample :
    (processTrajectory cfgW2 bendKernel clock0 threePt).map (fun x =>
      (x.1.processedPoints, x.1.filteredPoints)) =
      some ([fix00, fix21], [fix00, fix21]) ∧
    fix102 ∈ threePt ∧ fix102 ∉ [fix00, fix21] := by
  refine ⟨?_, by decide, by decide⟩
  simp only [processTrajectory, runPoints, threePt, clock0, stepP1, stepP2,
    stepP3, Option.some_bind, Option.map_some']
  rfl

theorem stepQ1 : processPoint cfgW2M4 bendKernel 0 initialState fix00 =
    some (true, sOne) := by
  norm_num [processPoint, updateBasePoint, capPush, initialState, cfgW2M4,
    defaultConfig, bendKernel, fix00, sOne]

theorem stepQ2 : processPoint cfgW2M4 bendKernel 0 sOne fix21 =
    some (true, sP2) := by
  norm_num [processPoint, updateBasePoint, calculateMedianPoint,
    calculateBasePointRadius, capPush, cfgW2M4, defaultConfig, bendKernel,
    taxicabDist, fix00, fix21, bpMed, sOne, sP2, dummyPoint,
    List.insertionSort, List.orderedInsert]

theorem stepQ3 : processPoint cfgW2M4 bendKernel 0 sP2 fix102 =
    some (false, sP3) := by
  norm_num [processPoint, isDriftPoint, isLinearMotion, capPush, cfgW2M4,
    defaultConfig, bendKernel, taxicabDist, fix00, fix21, fix102, bpMed, sP2,
    sP3]

theorem stepQ4 : processPoint cfgW2M4 bendKernel 0 sP3 pS11 =
    some (false, sQ4) := by
  norm_num [processPoint, isDriftPoint, isLinearMotion, capPush, cfgW2M4,
    defaultConfig, bendKernel, taxicabDist, fix00, fix21, fix102, pS11,
    bpMed, sP3, sQ4]

theorem stepQ5 : processPoint cfgW2M4 bendKernel 0 sQ4 pS12 =
    some (false, sQ5) := by
  norm_num [processPoint, isDriftPoint, isLinearMotion, capPush, cfgW2M4,
    defaultConfig, bendKernel, taxicabDist, fix00, fix21, fix102, pS11, pS12,
    bpMed, sQ4, sQ5]

theorem stepQ6 : processPoint cfgW2M4 bendKernel 0 sQ5 pS13 =
    some (true, sQ6) := by
  norm_num [processPoint, isDriftPoint, isLinearMotion, capPush,
    updateBasePoint, calculateMedianPoint, calculateBasePointRadius, cfgW2M4,
    defaultConfig, bendKernel, taxicabDist, fix00, fix21, fix102, pS11, pS12,
    pS13, bpMed, bpMed2, sQ5, sQ6, dummyPoint, List.insertionSort,
    List.orderedInsert]
  norm_num [abs, max_def]

set_option maxHeartbeats 800000 in
theorem C5_counterexample :
    (runPoints cfgW2M4 bendKernel clock0 0 initialState sixFixes).map (fun x =>
      (x.1, x.2.slidingWindow.length)) =
      some ([true, true, false, false, false, true], 4) ∧
    cfgW2M4.windowSize < 4 := by
  refine ⟨?_, by decide⟩
  simp only [runPoints, sixFixes, clock0, stepQ1, stepQ2, stepQ3, stepQ4,
    stepQ5, stepQ6, Option.some_bind, Option.map_some']
  rfl
end GPSTraj
